import Mathlib

/-!
Verification of the ciscoisesdk resource-wrapper pattern.

The repository is a generated REST client: each resource wrapper class
(`NetworkAccessConditions`, `ActiveDirectory`, `ByodPortal`,
`DeviceAdministrationAuthorizationRules`) exposes per-endpoint methods that
all follow one mechanical template.  This file shallowly embeds that template
and the concrete methods the claims refer to, together with the two JSON
schema validators under `src/tests/models/validators`.

Python values occurring in request bodies and query parameters are modelled
by `JValue` (with `JValue.null` standing for Python `None`), Python dicts by
association lists with Python's `dict.update` semantics (replacement keeps
the position of an existing key, new keys are appended), and the mutable
`RestSession` by the pair of a header state (`Headers`) and a pure response
oracle carried in `Env`.  Each wrapper method becomes a function from its
arguments and the session-header state to an `Outcome`: the list of HTTP
requests issued through the session, the resulting value (or raised
exception) and the session headers after the call.
-/

/-- JSON-serializable Python values.  `null` stands for Python `None`. -/
inductive JValue where
  | null : JValue
  | bool (b : Bool) : JValue
  | num (n : Int) : JValue
  | str (s : String) : JValue
  | arr (xs : List JValue) : JValue
  | obj (fields : List (String × JValue)) : JValue

/-- Whether a value is Python `None`. -/
def JValue.isNull : JValue → Bool
  | JValue.null => true
  | _ => false

/-- A Python dict with `JValue` values, as an ordered association list. -/
abbrev Params := List (String × JValue)

/-- A Python dict of string HTTP headers, as an ordered association list. -/
abbrev Headers := List (String × String)

/-- First-match lookup in an association list (Python `d.get(k)`). -/
def dictGet {α : Type} (d : List (String × α)) (k : String) : Option α :=
  match d with
  | [] => none
  | kv :: rest => if kv.1 = k then some kv.2 else dictGet rest k

/-- Python `d[k] = v`: replace the first entry for the key in place if one
exists (a Python dict never holds a duplicate key), else append. -/
def dictInsert {α : Type} : List (String × α) → String → α →
    List (String × α)
  | [], k, v => [(k, v)]
  | kv :: rest, k, v =>
      if kv.1 = k then (k, v) :: rest else kv :: dictInsert rest k v

/-- Python `d.update(e)`: insert every entry of `e` into `d` in order. -/
def dictUpdate {α : Type} (d e : List (String × α)) : List (String × α) :=
  e.foldl (fun acc kv => dictInsert acc kv.1 kv.2) d

/-- Modelled from the spec: the repository's `dict_from_items_with_values`
utility (in `ciscoisesdk/utils.py`, not under `src/`), the "dictionary
filtering" the spec mentions: it returns the dict restricted to the items
whose value is not `None`. -/
def dict_from_items_with_values (d : Params) : Params :=
  d.filter (fun kv => !kv.2.isNull)

/-- Whether the first character list is a prefix of the second. -/
def isPrefixB : List Char → List Char → Bool
  | [], _ => true
  | _ :: _, [] => false
  | a :: as, b :: bs => a = b && isPrefixB as bs

/-- Whether the first character list occurs inside the second. -/
def isInfixB (needle : List Char) : List Char → Bool
  | [] => isPrefixB needle []
  | c :: rest => isPrefixB needle (c :: rest) || isInfixB needle rest

/-- Replace every occurrence of `pat` by `rep`, scanning left to right;
`fuel` bounds the scan (one unit per step suffices since every step
consumes at least one character). -/
def replaceAux (pat rep : List Char) : Nat → List Char → List Char
  | _, [] => []
  | 0, l => l
  | Nat.succ fuel, c :: rest =>
      if !pat.isEmpty && isPrefixB pat (c :: rest) then
        rep ++ replaceAux pat rep fuel (List.drop (pat.length - 1) rest)
      else
        c :: replaceAux pat rep fuel rest

/-- Replace every occurrence of the substring `pat` by `rep` in `s`. -/
def replaceSub (s pat rep : String) : String :=
  String.mk (replaceAux pat.toList rep.toList s.length s.toList)

/-- Modelled from the spec: `apply_path_params` (in `ciscoisesdk/utils.py`,
not under `src/`) "builds a URL from path parameters": each `{key}`
placeholder of the template is replaced by the corresponding value. -/
def apply_path_params (url : String) (pathParams : List (String × String)) :
    String :=
  pathParams.foldl
    (fun u kv => replaceSub u ("\x7b" ++ kv.1 ++ "\x7d") kv.2)
    url

/-- Modelled from the spec: `dict_of_str` (in `ciscoisesdk/utils.py`, not
under `src/`) converts each key and value of a headers dict to `str`; on a
string-to-string dict, as here, it is the identity. -/
def dict_of_str (d : Headers) : Headers :=
  d

/-- Python `needle in haystack` on strings (substring test). -/
def strContains (haystack needle : String) : Bool :=
  isInfixB needle.toList haystack.toList

/-- The HTTP verbs reachable through the shared session object. -/
inductive HttpMethod where
  | get | post | put | delete

/-- The `payload` argument of a body-sending wrapper method: either an XML
string or a JSON-serializable dict, as documented in the method docstrings. -/
inductive PayloadArg where
  | xml (s : String)
  | dict (d : Params)

/-- The body given to the session call: `{'data': _payload}` in XML mode
(the raw `payload` argument) or `{'json': _payload}` in JSON mode. -/
inductive Body where
  | data (p : Option PayloadArg)
  | json (d : Params)

/-- One HTTP request issued through the shared session: verb, expanded URL,
filtered query parameters, the explicit `headers=` argument when
`with_custom_headers` was set, and the body for body-sending calls. -/
structure HttpRequest where
  method : HttpMethod
  url : String
  params : Params
  headers : Option Headers
  body : Option Body

/-- The raw REST response a session call evaluates to. -/
structure RestResponse where
  body : JValue

/-- Exceptions a wrapper method can raise client-side. -/
inductive PyErr where
  | typeError (msg : String)
  | malformedRequest (msg : String)
  | valueError (msg : String)

/-- The injected collaborators of a wrapper class: the session's response
behaviour, the object factory `self._object_factory` (wrapping a raw
response into some client-facing type `W`), and the request validator
dispatch `self._request_validator` (id to validator, whose `validate`
raises `MalformedRequest`, modelled as `Except.error`). -/
structure Env (W : Type) where
  respond : HttpRequest → RestResponse
  object_factory : String → RestResponse → W
  request_validator : String → JValue → Except String Unit

/-- What one wrapper-method invocation did: the requests issued through the
session (in order), the returned value or raised exception, and the
session's header dict after the call. -/
structure Outcome (W : Type) where
  requests : List HttpRequest
  result : Except PyErr W
  sessionHeaders : Headers

/-- The header-merging prologue shared by every wrapper method:

    with_custom_headers = False
    _headers = self._session.headers or \x7b\x7d
    if headers:
        _headers.update(dict_of_str(headers))
        with_custom_headers = True

Because `self._session.headers or \x7b\x7d` aliases the session's own dict
whenever that dict is non-empty, the update then mutates the session's
headers in place.  Returns `(_headers, session headers afterwards,
with_custom_headers)`. -/
def mergeHeadersStep (sessionHeaders : Headers) (headers : Option Headers) :
    Headers × Headers × Bool :=
  let hs := headers.getD []
  if hs = [] then
    (sessionHeaders, sessionHeaders, false)
  else
    let merged := dictUpdate sessionHeaders (dict_of_str hs)
    if sessionHeaders = [] then
      (merged, sessionHeaders, true)
    else
      (merged, merged, true)

/-- The shared template of a wrapper method without a request body
(`GET`/`DELETE` endpoints and the body-less `POST` reset-hitcount endpoint):
merge headers, filter query parameters, expand the URL, issue one session
call, and hand the raw response to the object factory. -/
def runNoBodyMethod {W : Type} (env : Env W) (sessionHeaders : Headers)
    (method : HttpMethod) (urlTemplate : String)
    (pathParams : List (String × String)) (paramSeed : Params)
    (factoryId : String) (headers : Option Headers)
    (query_parameters : Params) : Outcome W :=
  let mh := mergeHeadersStep sessionHeaders headers
  let callHeaders := mh.1
  let newSession := mh.2.1
  let with_custom_headers := mh.2.2
  let ps := dict_from_items_with_values (dictUpdate paramSeed query_parameters)
  let endpoint_full_url := apply_path_params urlTemplate pathParams
  let req : HttpRequest :=
    { method := method
      url := endpoint_full_url
      params := ps
      headers := if with_custom_headers then some callHeaders else none
      body := none }
  let resp := env.respond req
  { requests := [req]
    result := Except.ok (env.object_factory factoryId resp)
    sessionHeaders := newSession }

/-- The JSON-mode body assembly of a body-sending wrapper method: the named
body arguments (with `None` entries dropped), wrapped under the resource's
root key when the endpoint has one, then `_payload.update(payload or \x7b\x7d)`,
then a final `dict_from_items_with_values`.  Errors when `payload` is a
non-empty string (Python's `dict.update` would raise). -/
def assembleJsonBody (rootKey : Option String) (namedBody : Params)
    (payload : Option PayloadArg) : Except PyErr Params :=
  let base : Params :=
    match rootKey with
    | none => namedBody
    | some rk => [(rk, JValue.obj (dict_from_items_with_values namedBody))]
  match payload with
  | none => Except.ok (dict_from_items_with_values base)
  | some (PayloadArg.dict d) =>
      Except.ok (dict_from_items_with_values (dictUpdate base d))
  | some (PayloadArg.xml s) =>
      if s = "" then Except.ok (dict_from_items_with_values base)
      else Except.error (PyErr.valueError "dictionary update sequence")

/-- The `is_xml_payload` test of every body-sending wrapper method:
`'application/xml' in _headers.get('Content-Type', [])` evaluated on the
merged call headers. -/
def xmlMode (sessionHeaders : Headers) (headers : Option Headers) : Bool :=
  strContains
    ((dictGet (mergeHeadersStep sessionHeaders headers).1
      "Content-Type").getD "")
    "application/xml"

/-- The `check_type(payload, ...)` guards of a body-sending wrapper method:
with `active_validation` on, an XML payload must be a string and a JSON
payload must be a dict (`None` is accepted by both, `may_be_none` being the
`check_type` default); with validation off nothing is checked. -/
def payloadCheck (active_validation is_xml_payload : Bool)
    (payload : Option PayloadArg) : Bool :=
  if active_validation && is_xml_payload then
    match payload with
    | none => true
    | some (PayloadArg.xml _) => true
    | some (PayloadArg.dict _) => false
  else if active_validation && !is_xml_payload then
    match payload with
    | none => true
    | some (PayloadArg.dict _) => true
    | some (PayloadArg.xml _) => false
  else true

/-- The shared template of a body-sending wrapper method (`POST`/`PUT`):
merge headers, decide XML vs JSON mode from the merged `Content-Type`,
type-check the `payload` argument when `active_validation` is on, filter
query parameters, assemble the body (JSON mode) or pass `payload` through
(XML mode), run the JSON-Schema validator before anything is sent, and only
then issue the single session call and apply the object factory. -/
def runBodyMethod {W : Type} (env : Env W) (sessionHeaders : Headers)
    (method : HttpMethod) (urlTemplate : String)
    (pathParams : List (String × String)) (paramSeed : Params)
    (rootKey : Option String) (namedBody : Params) (validatorId : String)
    (factoryId : String) (headers : Option Headers)
    (payload : Option PayloadArg) (active_validation : Bool)
    (query_parameters : Params) : Outcome W :=
  let mh := mergeHeadersStep sessionHeaders headers
  let callHeaders := mh.1
  let newSession := mh.2.1
  let with_custom_headers := mh.2.2
  let is_xml_payload := xmlMode sessionHeaders headers
  if payloadCheck active_validation is_xml_payload payload = false then
    { requests := []
      result := Except.error (PyErr.typeError "payload")
      sessionHeaders := newSession }
  else
    let ps :=
      dict_from_items_with_values (dictUpdate paramSeed query_parameters)
    let endpoint_full_url := apply_path_params urlTemplate pathParams
    if is_xml_payload then
      let req : HttpRequest :=
        { method := method
          url := endpoint_full_url
          params := ps
          headers := if with_custom_headers then some callHeaders else none
          body := some (Body.data payload) }
      let resp := env.respond req
      { requests := [req]
        result := Except.ok (env.object_factory factoryId resp)
        sessionHeaders := newSession }
    else
      match assembleJsonBody rootKey namedBody payload with
      | Except.error e =>
          { requests := []
            result := Except.error e
            sessionHeaders := newSession }
      | Except.ok _payload =>
          let validation : Except String Unit :=
            if active_validation then
              env.request_validator validatorId (JValue.obj _payload)
            else Except.ok ()
          match validation with
          | Except.error msg =>
              { requests := []
                result := Except.error (PyErr.malformedRequest msg)
                sessionHeaders := newSession }
          | Except.ok () =>
              let req : HttpRequest :=
                { method := method
                  url := endpoint_full_url
                  params := ps
                  headers :=
                    if with_custom_headers then some callHeaders else none
                  body := some (Body.json _payload) }
              let resp := env.respond req
              { requests := [req]
                result := Except.ok (env.object_factory factoryId resp)
                sessionHeaders := newSession }

namespace NetworkAccessConditions

/-- `NetworkAccessConditions.get_network_access_conditions`: GET on
`/api/v1/policy/network-access/condition` ("Returns all library
conditions") issued directly through the session. -/
def get_network_access_conditions {W : Type} (env : Env W)
    (sessionHeaders : Headers) (headers : Option Headers)
    (query_parameters : Params) : Outcome W :=
  runNoBodyMethod env sessionHeaders HttpMethod.get
    "/api/v1/policy/network-access/condition" [] []
    "bpm_df4fb303a3e5661ba12058f18b225af_v3_1_0" headers query_parameters

/-- `NetworkAccessConditions.get_all`: alias, calls
`get_network_access_conditions` with the same arguments. -/
def get_all {W : Type} (env : Env W) (sessionHeaders : Headers)
    (headers : Option Headers) (query_parameters : Params) : Outcome W :=
  get_network_access_conditions env sessionHeaders headers query_parameters

/-- The named request-body arguments of the library-condition create/update
methods, in the order the source lists the body keys. -/
def conditionBody (attribute_name attribute_value children condition_type
    dates_range dates_range_exception description dictionary_name
    dictionary_value hours_range hours_range_exception id is_negate link
    name operator week_days week_days_exception : JValue) : Params :=
  [("conditionType", condition_type),
   ("isNegate", is_negate),
   ("link", link),
   ("description", description),
   ("id", id),
   ("name", name),
   ("attributeName", attribute_name),
   ("attributeValue", attribute_value),
   ("dictionaryName", dictionary_name),
   ("dictionaryValue", dictionary_value),
   ("operator", operator),
   ("children", children),
   ("datesRange", dates_range),
   ("datesRangeException", dates_range_exception),
   ("hoursRange", hours_range),
   ("hoursRangeException", hours_range_exception),
   ("weekDays", week_days),
   ("weekDaysException", week_days_exception)]

/-- `NetworkAccessConditions.create_network_access_condition`: POST with a
flat (no root key) JSON body built from the named arguments. -/
def create_network_access_condition {W : Type} (env : Env W)
    (sessionHeaders : Headers)
    (attribute_name attribute_value children condition_type dates_range
     dates_range_exception description dictionary_name dictionary_value
     hours_range hours_range_exception id is_negate link name operator
     week_days week_days_exception : JValue)
    (headers : Option Headers) (payload : Option PayloadArg)
    (active_validation : Bool) (query_parameters : Params) : Outcome W :=
  runBodyMethod env sessionHeaders HttpMethod.post
    "/api/v1/policy/network-access/condition" [] [] none
    (conditionBody attribute_name attribute_value children condition_type
      dates_range dates_range_exception description dictionary_name
      dictionary_value hours_range hours_range_exception id is_negate link
      name operator week_days week_days_exception)
    "jsd_e7bd468ee94f53869e52e84454efd0e6_v3_1_0"
    "bpm_e7bd468ee94f53869e52e84454efd0e6_v3_1_0"
    headers payload active_validation query_parameters

/-- `NetworkAccessConditions.create`: alias, calls
`create_network_access_condition` with all arguments passed through. -/
def create {W : Type} (env : Env W) (sessionHeaders : Headers)
    (attribute_name attribute_value children condition_type dates_range
     dates_range_exception description dictionary_name dictionary_value
     hours_range hours_range_exception id is_negate link name operator
     week_days week_days_exception : JValue)
    (headers : Option Headers) (payload : Option PayloadArg)
    (active_validation : Bool) (query_parameters : Params) : Outcome W :=
  create_network_access_condition env sessionHeaders attribute_name
    attribute_value children condition_type dates_range
    dates_range_exception description dictionary_name dictionary_value
    hours_range hours_range_exception id is_negate link name operator
    week_days week_days_exception headers payload active_validation
    query_parameters

/-- `NetworkAccessConditions.get_network_access_condition_by_name`. -/
def get_network_access_condition_by_name {W : Type} (env : Env W)
    (sessionHeaders : Headers) (name : String) (headers : Option Headers)
    (query_parameters : Params) : Outcome W :=
  runNoBodyMethod env sessionHeaders HttpMethod.get
    "/api/v1/policy/network-access/condition/condition-by-name/{name}"
    [("name", name)] []
    "bpm_f3b949de4363575398dc1c9e681630bb_v3_1_0" headers query_parameters

/-- `NetworkAccessConditions.get_by_name`: alias. -/
def get_by_name {W : Type} (env : Env W) (sessionHeaders : Headers)
    (name : String) (headers : Option Headers) (query_parameters : Params) :
    Outcome W :=
  get_network_access_condition_by_name env sessionHeaders name headers
    query_parameters

/-- `NetworkAccessConditions.update_network_access_condition_by_name`: PUT
with a flat JSON body; the `name` path parameter is also placed in the body
under the key `name`. -/
def update_network_access_condition_by_name {W : Type} (env : Env W)
    (sessionHeaders : Headers) (name : String)
    (attribute_name attribute_value children condition_type dates_range
     dates_range_exception description dictionary_name dictionary_value
     hours_range hours_range_exception id is_negate link operator
     week_days week_days_exception : JValue)
    (headers : Option Headers) (payload : Option PayloadArg)
    (active_validation : Bool) (query_parameters : Params) : Outcome W :=
  runBodyMethod env sessionHeaders HttpMethod.put
    "/api/v1/policy/network-access/condition/condition-by-name/{name}"
    [("name", name)] [] none
    (conditionBody attribute_name attribute_value children condition_type
      dates_range dates_range_exception description dictionary_name
      dictionary_value hours_range hours_range_exception id is_negate link
      (JValue.str name) operator week_days week_days_exception)
    "jsd_bea2910401185295a9715d65cb1c07c9_v3_1_0"
    "bpm_bea2910401185295a9715d65cb1c07c9_v3_1_0"
    headers payload active_validation query_parameters

/-- `NetworkAccessConditions.update_by_name`: alias. -/
def update_by_name {W : Type} (env : Env W) (sessionHeaders : Headers)
    (name : String)
    (attribute_name attribute_value children condition_type dates_range
     dates_range_exception description dictionary_name dictionary_value
     hours_range hours_range_exception id is_negate link operator
     week_days week_days_exception : JValue)
    (headers : Option Headers) (payload : Option PayloadArg)
    (active_validation : Bool) (query_parameters : Params) : Outcome W :=
  update_network_access_condition_by_name env sessionHeaders name
    attribute_name attribute_value children condition_type dates_range
    dates_range_exception description dictionary_name dictionary_value
    hours_range hours_range_exception id is_negate link operator week_days
    week_days_exception headers payload active_validation query_parameters

/-- `NetworkAccessConditions.delete_network_access_condition_by_name`. -/
def delete_network_access_condition_by_name {W : Type} (env : Env W)
    (sessionHeaders : Headers) (name : String) (headers : Option Headers)
    (query_parameters : Params) : Outcome W :=
  runNoBodyMethod env sessionHeaders HttpMethod.delete
    "/api/v1/policy/network-access/condition/condition-by-name/{name}"
    [("name", name)] []
    "bpm_ea1c05d19955fd4801e6c996705f3fc_v3_1_0" headers query_parameters

/-- `NetworkAccessConditions.delete_by_name`: alias. -/
def delete_by_name {W : Type} (env : Env W) (sessionHeaders : Headers)
    (name : String) (headers : Option Headers) (query_parameters : Params) :
    Outcome W :=
  delete_network_access_condition_by_name env sessionHeaders name headers
    query_parameters

/-- `NetworkAccessConditions.get_network_access_condition_by_id`. -/
def get_network_access_condition_by_id {W : Type} (env : Env W)
    (sessionHeaders : Headers) (id : String) (headers : Option Headers)
    (query_parameters : Params) : Outcome W :=
  runNoBodyMethod env sessionHeaders HttpMethod.get
    "/api/v1/policy/network-access/condition/{id}" [("id", id)] []
    "bpm_f2b0a67d389a592dba005895594b77cc_v3_1_0" headers query_parameters

/-- `NetworkAccessConditions.get_by_id`: alias. -/
def get_by_id {W : Type} (env : Env W) (sessionHeaders : Headers)
    (id : String) (headers : Option Headers) (query_parameters : Params) :
    Outcome W :=
  get_network_access_condition_by_id env sessionHeaders id headers
    query_parameters

/-- `NetworkAccessConditions.update_network_access_condition_by_id`: PUT
with a flat JSON body; the `id` path parameter is also placed in the body
under the key `id`. -/
def update_network_access_condition_by_id {W : Type} (env : Env W)
    (sessionHeaders : Headers) (id : String)
    (attribute_name attribute_value children condition_type dates_range
     dates_range_exception description dictionary_name dictionary_value
     hours_range hours_range_exception is_negate link name operator
     week_days week_days_exception : JValue)
    (headers : Option Headers) (payload : Option PayloadArg)
    (active_validation : Bool) (query_parameters : Params) : Outcome W :=
  runBodyMethod env sessionHeaders HttpMethod.put
    "/api/v1/policy/network-access/condition/{id}" [("id", id)] [] none
    (conditionBody attribute_name attribute_value children condition_type
      dates_range dates_range_exception description dictionary_name
      dictionary_value hours_range hours_range_exception (JValue.str id)
      is_negate link name operator week_days week_days_exception)
    "jsd_e405a20316825460a1f37a2f161e7ac5_v3_1_0"
    "bpm_e405a20316825460a1f37a2f161e7ac5_v3_1_0"
    headers payload active_validation query_parameters

/-- `NetworkAccessConditions.update_by_id`: alias. -/
def update_by_id {W : Type} (env : Env W) (sessionHeaders : Headers)
    (id : String)
    (attribute_name attribute_value children condition_type dates_range
     dates_range_exception description dictionary_name dictionary_value
     hours_range hours_range_exception is_negate link name operator
     week_days week_days_exception : JValue)
    (headers : Option Headers) (payload : Option PayloadArg)
    (active_validation : Bool) (query_parameters : Params) : Outcome W :=
  update_network_access_condition_by_id env sessionHeaders id
    attribute_name attribute_value children condition_type dates_range
    dates_range_exception description dictionary_name dictionary_value
    hours_range hours_range_exception is_negate link name operator
    week_days week_days_exception headers payload active_validation
    query_parameters

/-- `NetworkAccessConditions.delete_network_access_condition_by_id`. -/
def delete_network_access_condition_by_id {W : Type} (env : Env W)
    (sessionHeaders : Headers) (id : String) (headers : Option Headers)
    (query_parameters : Params) : Outcome W :=
  runNoBodyMethod env sessionHeaders HttpMethod.delete
    "/api/v1/policy/network-access/condition/{id}" [("id", id)] []
    "bpm_d87a24994c514d955149d33e1a99fb_v3_1_0" headers query_parameters

/-- `NetworkAccessConditions.delete_by_id`: alias. -/
def delete_by_id {W : Type} (env : Env W) (sessionHeaders : Headers)
    (id : String) (headers : Option Headers) (query_parameters : Params) :
    Outcome W :=
  delete_network_access_condition_by_id env sessionHeaders id headers
    query_parameters

end NetworkAccessConditions

namespace ActiveDirectory

/-- `ActiveDirectory.get_active_directory_by_name`: GET on
`/ers/config/activedirectory/name/{name}`. -/
def get_active_directory_by_name {W : Type} (env : Env W)
    (sessionHeaders : Headers) (name : String) (headers : Option Headers)
    (query_parameters : Params) : Outcome W :=
  runNoBodyMethod env sessionHeaders HttpMethod.get
    "/ers/config/activedirectory/name/{name}" [("name", name)] []
    "bpm_c6be021c4ca59e48c97afe218219bb1_v3_1_0" headers query_parameters

/-- `ActiveDirectory.get_by_name`: alias. -/
def get_by_name {W : Type} (env : Env W) (sessionHeaders : Headers)
    (name : String) (headers : Option Headers) (query_parameters : Params) :
    Outcome W :=
  get_active_directory_by_name env sessionHeaders name headers
    query_parameters

/-- `ActiveDirectory.get_user_groups`: PUT on
`/ers/config/activedirectory/{id}/getUserGroups` with the body wrapped
under the root key `OperationAdditionalData`. -/
def get_user_groups {W : Type} (env : Env W) (sessionHeaders : Headers)
    (id : String) (additional_data : JValue) (headers : Option Headers)
    (payload : Option PayloadArg) (active_validation : Bool)
    (query_parameters : Params) : Outcome W :=
  runBodyMethod env sessionHeaders HttpMethod.put
    "/ers/config/activedirectory/{id}/getUserGroups" [("id", id)] []
    (some "OperationAdditionalData")
    [("additionalData", additional_data)]
    "jsd_b839d4dee9b958e48ccef056603e253f_v3_1_0"
    "bpm_b839d4dee9b958e48ccef056603e253f_v3_1_0"
    headers payload active_validation query_parameters

/-- The named request-body arguments of the Active Directory create /
load-groups methods, in the order the source lists the body keys. -/
def ersActiveDirectoryBody (id name description domain
    enable_domain_white_list adgroups advanced_settings ad_attributes
    ad_scopes_names : JValue) : Params :=
  [("id", id),
   ("name", name),
   ("description", description),
   ("domain", domain),
   ("enableDomainWhiteList", enable_domain_white_list),
   ("adgroups", adgroups),
   ("advancedSettings", advanced_settings),
   ("adAttributes", ad_attributes),
   ("adScopesNames", ad_scopes_names)]

/-- `ActiveDirectory.load_groups_from_domain`: PUT on
`/ers/config/activedirectory/{id}/addGroups` with the body wrapped under
the root key `ERSActiveDirectory`; the `id` path parameter is also placed
in the body under the key `id`. -/
def load_groups_from_domain {W : Type} (env : Env W)
    (sessionHeaders : Headers) (id : String)
    (ad_attributes ad_scopes_names adgroups advanced_settings description
     domain enable_domain_white_list name : JValue)
    (headers : Option Headers) (payload : Option PayloadArg)
    (active_validation : Bool) (query_parameters : Params) : Outcome W :=
  runBodyMethod env sessionHeaders HttpMethod.put
    "/ers/config/activedirectory/{id}/addGroups" [("id", id)] []
    (some "ERSActiveDirectory")
    (ersActiveDirectoryBody (JValue.str id) name description domain
      enable_domain_white_list adgroups advanced_settings ad_attributes
      ad_scopes_names)
    "jsd_b05e80058df96e685baa727d578_v3_1_0"
    "bpm_b05e80058df96e685baa727d578_v3_1_0"
    headers payload active_validation query_parameters

/-- `ActiveDirectory.get_active_directory`: GET on
`/ers/config/activedirectory` with `page` and `size` query parameters
("lists all the join points"), issued directly through the session. -/
def get_active_directory {W : Type} (env : Env W)
    (sessionHeaders : Headers) (page size : JValue)
    (headers : Option Headers) (query_parameters : Params) : Outcome W :=
  runNoBodyMethod env sessionHeaders HttpMethod.get
    "/ers/config/activedirectory" []
    [("page", page), ("size", size)]
    "bpm_c8dbec9679d453f78cb47d894c507a7b_v3_1_0" headers query_parameters

/-- `ActiveDirectory.get_all`: alias, calls `get_active_directory`. -/
def get_all {W : Type} (env : Env W) (sessionHeaders : Headers)
    (page size : JValue) (headers : Option Headers)
    (query_parameters : Params) : Outcome W :=
  get_active_directory env sessionHeaders page size headers query_parameters

/-- `ActiveDirectory.create_active_directory`: POST on
`/ers/config/activedirectory` with the body wrapped under the root key
`ERSActiveDirectory`. -/
def create_active_directory {W : Type} (env : Env W)
    (sessionHeaders : Headers)
    (ad_attributes ad_scopes_names adgroups advanced_settings description
     domain enable_domain_white_list id name : JValue)
    (headers : Option Headers) (payload : Option PayloadArg)
    (active_validation : Bool) (query_parameters : Params) : Outcome W :=
  runBodyMethod env sessionHeaders HttpMethod.post
    "/ers/config/activedirectory" [] []
    (some "ERSActiveDirectory")
    (ersActiveDirectoryBody id name description domain
      enable_domain_white_list adgroups advanced_settings ad_attributes
      ad_scopes_names)
    "jsd_e9318040a456978757d7abfa3e66b1_v3_1_0"
    "bpm_e9318040a456978757d7abfa3e66b1_v3_1_0"
    headers payload active_validation query_parameters

/-- `ActiveDirectory.create`: alias, calls `create_active_directory` with
all arguments passed through. -/
def create {W : Type} (env : Env W) (sessionHeaders : Headers)
    (ad_attributes ad_scopes_names adgroups advanced_settings description
     domain enable_domain_white_list id name : JValue)
    (headers : Option Headers) (payload : Option PayloadArg)
    (active_validation : Bool) (query_parameters : Params) : Outcome W :=
  create_active_directory env sessionHeaders ad_attributes ad_scopes_names
    adgroups advanced_settings description domain enable_domain_white_list
    id name headers payload active_validation query_parameters

/-- `ActiveDirectory.get_active_directory_by_id`. -/
def get_active_directory_by_id {W : Type} (env : Env W)
    (sessionHeaders : Headers) (id : String) (headers : Option Headers)
    (query_parameters : Params) : Outcome W :=
  runNoBodyMethod env sessionHeaders HttpMethod.get
    "/ers/config/activedirectory/{id}" [("id", id)] []
    "bpm_cfcc7615d0492e2dd1b04dd03a9_v3_1_0" headers query_parameters

/-- `ActiveDirectory.get_by_id`: alias. -/
def get_by_id {W : Type} (env : Env W) (sessionHeaders : Headers)
    (id : String) (headers : Option Headers) (query_parameters : Params) :
    Outcome W :=
  get_active_directory_by_id env sessionHeaders id headers query_parameters

/-- `ActiveDirectory.delete_active_directory_by_id`. -/
def delete_active_directory_by_id {W : Type} (env : Env W)
    (sessionHeaders : Headers) (id : String) (headers : Option Headers)
    (query_parameters : Params) : Outcome W :=
  runNoBodyMethod env sessionHeaders HttpMethod.delete
    "/ers/config/activedirectory/{id}" [("id", id)] []
    "bpm_febbe79ed5bb780d97a98f292b606_v3_1_0" headers query_parameters

/-- `ActiveDirectory.delete_by_id`: alias. -/
def delete_by_id {W : Type} (env : Env W) (sessionHeaders : Headers)
    (id : String) (headers : Option Headers) (query_parameters : Params) :
    Outcome W :=
  delete_active_directory_by_id env sessionHeaders id headers
    query_parameters

end ActiveDirectory

namespace ByodPortal

/-- `ByodPortal.get_byod_portal_by_id`: GET on
`/ers/config/byodportal/{id}`. -/
def get_byod_portal_by_id {W : Type} (env : Env W)
    (sessionHeaders : Headers) (id : String) (headers : Option Headers)
    (query_parameters : Params) : Outcome W :=
  runNoBodyMethod env sessionHeaders HttpMethod.get
    "/ers/config/byodportal/{id}" [("id", id)] []
    "bpm_effdf30a3e3a5781ba1f5cf833395359_v3_1_0" headers query_parameters

/-- `ByodPortal.get_by_id`: alias. -/
def get_by_id {W : Type} (env : Env W) (sessionHeaders : Headers)
    (id : String) (headers : Option Headers) (query_parameters : Params) :
    Outcome W :=
  get_byod_portal_by_id env sessionHeaders id headers query_parameters

/-- The named request-body arguments of the BYOD portal create/update
methods, in the order the source lists the body keys. -/
def byodPortalBody (id name description portal_type portal_test_url
    settings customizations : JValue) : Params :=
  [("id", id),
   ("name", name),
   ("description", description),
   ("portalType", portal_type),
   ("portalTestUrl", portal_test_url),
   ("settings", settings),
   ("customizations", customizations)]

/-- `ByodPortal.update_byod_portal_by_id`: PUT on
`/ers/config/byodportal/{id}` with the body wrapped under the root key
`BYODPortal`; the `id` path parameter is also placed in the body under the
key `id`. -/
def update_byod_portal_by_id {W : Type} (env : Env W)
    (sessionHeaders : Headers) (id : String)
    (customizations description name portal_test_url portal_type
     settings : JValue)
    (headers : Option Headers) (payload : Option PayloadArg)
    (active_validation : Bool) (query_parameters : Params) : Outcome W :=
  runBodyMethod env sessionHeaders HttpMethod.put
    "/ers/config/byodportal/{id}" [("id", id)] []
    (some "BYODPortal")
    (byodPortalBody (JValue.str id) name description portal_type
      portal_test_url settings customizations)
    "jsd_e38d10b1ea257d49ebce893e87b3419_v3_1_0"
    "bpm_e38d10b1ea257d49ebce893e87b3419_v3_1_0"
    headers payload active_validation query_parameters

/-- `ByodPortal.update_by_id`: alias. -/
def update_by_id {W : Type} (env : Env W) (sessionHeaders : Headers)
    (id : String)
    (customizations description name portal_test_url portal_type
     settings : JValue)
    (headers : Option Headers) (payload : Option PayloadArg)
    (active_validation : Bool) (query_parameters : Params) : Outcome W :=
  update_byod_portal_by_id env sessionHeaders id customizations description
    name portal_test_url portal_type settings headers payload
    active_validation query_parameters

/-- `ByodPortal.delete_byod_portal_by_id`. -/
def delete_byod_portal_by_id {W : Type} (env : Env W)
    (sessionHeaders : Headers) (id : String) (headers : Option Headers)
    (query_parameters : Params) : Outcome W :=
  runNoBodyMethod env sessionHeaders HttpMethod.delete
    "/ers/config/byodportal/{id}" [("id", id)] []
    "bpm_df2fb34fbab65254ac87d1be50abd15f_v3_1_0" headers query_parameters

/-- `ByodPortal.delete_by_id`: alias. -/
def delete_by_id {W : Type} (env : Env W) (sessionHeaders : Headers)
    (id : String) (headers : Option Headers) (query_parameters : Params) :
    Outcome W :=
  delete_byod_portal_by_id env sessionHeaders id headers query_parameters

/-- `ByodPortal.get_byod_portal`: GET on `/ers/config/byodportal` with the
paging/sorting/filtering query parameters ("get all the BYOD portals"),
issued directly through the session. -/
def get_byod_portal {W : Type} (env : Env W) (sessionHeaders : Headers)
    (filter filter_type page size sortasc sortdsc : JValue)
    (headers : Option Headers) (query_parameters : Params) : Outcome W :=
  runNoBodyMethod env sessionHeaders HttpMethod.get
    "/ers/config/byodportal" []
    [("page", page), ("size", size), ("sortasc", sortasc),
     ("sortdsc", sortdsc), ("filter", filter), ("filterType", filter_type)]
    "bpm_a23b580495514394b125800e073c9a_v3_1_0" headers query_parameters

/-- `ByodPortal.get_all`: alias, calls `get_byod_portal`. -/
def get_all {W : Type} (env : Env W) (sessionHeaders : Headers)
    (filter filter_type page size sortasc sortdsc : JValue)
    (headers : Option Headers) (query_parameters : Params) : Outcome W :=
  get_byod_portal env sessionHeaders filter filter_type page size sortasc
    sortdsc headers query_parameters

/-- `ByodPortal.create_byod_portal`: POST on `/ers/config/byodportal` with
the body wrapped under the root key `BYODPortal`. -/
def create_byod_portal {W : Type} (env : Env W) (sessionHeaders : Headers)
    (customizations description id name portal_test_url portal_type
     settings : JValue)
    (headers : Option Headers) (payload : Option PayloadArg)
    (active_validation : Bool) (query_parameters : Params) : Outcome W :=
  runBodyMethod env sessionHeaders HttpMethod.post
    "/ers/config/byodportal" [] []
    (some "BYODPortal")
    (byodPortalBody id name description portal_type portal_test_url
      settings customizations)
    "jsd_afcce33ec863567f94f3b9b73719ff8d_v3_1_0"
    "bpm_afcce33ec863567f94f3b9b73719ff8d_v3_1_0"
    headers payload active_validation query_parameters

/-- `ByodPortal.create`: alias, calls `create_byod_portal` with all
arguments passed through. -/
def create {W : Type} (env : Env W) (sessionHeaders : Headers)
    (customizations description id name portal_test_url portal_type
     settings : JValue)
    (headers : Option Headers) (payload : Option PayloadArg)
    (active_validation : Bool) (query_parameters : Params) : Outcome W :=
  create_byod_portal env sessionHeaders customizations description id name
    portal_test_url portal_type settings headers payload active_validation
    query_parameters

end ByodPortal

namespace DeviceAdministrationAuthorizationRules

/-- `DeviceAdministrationAuthorizationRules.get_device_admin_policy_by_id_authorization_rule_list`:
GET on `/v1/policy/device-admin/policy-set/{policyId}/authorization`
("Get authorization rules") issued directly through the session. -/
def get_device_admin_policy_by_id_authorization_rule_list {W : Type}
    (env : Env W) (sessionHeaders : Headers) (policy_id : String)
    (headers : Option Headers) (query_parameters : Params) : Outcome W :=
  runNoBodyMethod env sessionHeaders HttpMethod.get
    "/v1/policy/device-admin/policy-set/{policyId}/authorization"
    [("policyId", policy_id)] []
    "bpm_e4ac2543c3b53b5982168169f0b29b4_v3_0_0" headers query_parameters

/-- `DeviceAdministrationAuthorizationRules.get_all`: alias. -/
def get_all {W : Type} (env : Env W) (sessionHeaders : Headers)
    (policy_id : String) (headers : Option Headers)
    (query_parameters : Params) : Outcome W :=
  get_device_admin_policy_by_id_authorization_rule_list env sessionHeaders
    policy_id headers query_parameters

/-- The named request-body arguments of the authorization-rule
create/update methods, in the order the source lists the body keys.  Note
that this resource has no root key: the body is flat. -/
def authorizationRuleBody (commands link profile rule : JValue) : Params :=
  [("commands", commands),
   ("link", link),
   ("profile", profile),
   ("rule", rule)]

/-- `DeviceAdministrationAuthorizationRules.create_device_admin_policy_by_id_authorization_rule`:
POST with a flat (no root key) JSON body. -/
def create_device_admin_policy_by_id_authorization_rule {W : Type}
    (env : Env W) (sessionHeaders : Headers) (policy_id : String)
    (commands link profile rule : JValue) (headers : Option Headers)
    (payload : Option PayloadArg) (active_validation : Bool)
    (query_parameters : Params) : Outcome W :=
  runBodyMethod env sessionHeaders HttpMethod.post
    "/v1/policy/device-admin/policy-set/{policyId}/authorization"
    [("policyId", policy_id)] [] none
    (authorizationRuleBody commands link profile rule)
    "jsd_a5fd2b5d5306b9941387f400c7a0_v3_0_0"
    "bpm_a5fd2b5d5306b9941387f400c7a0_v3_0_0"
    headers payload active_validation query_parameters

/-- `DeviceAdministrationAuthorizationRules.create`: alias. -/
def create {W : Type} (env : Env W) (sessionHeaders : Headers)
    (policy_id : String) (commands link profile rule : JValue)
    (headers : Option Headers) (payload : Option PayloadArg)
    (active_validation : Bool) (query_parameters : Params) : Outcome W :=
  create_device_admin_policy_by_id_authorization_rule env sessionHeaders
    policy_id commands link profile rule headers payload active_validation
    query_parameters

/-- `DeviceAdministrationAuthorizationRules.reset_hit_counts_device_admin_policy_by_id_authorization_rules`:
a body-less POST on
`/v1/policy/device-admin/policy-set/{policyId}/authorization/reset-hitcount`. -/
def reset_hit_counts_device_admin_policy_by_id_authorization_rules
    {W : Type} (env : Env W) (sessionHeaders : Headers) (policy_id : String)
    (headers : Option Headers) (query_parameters : Params) : Outcome W :=
  runNoBodyMethod env sessionHeaders HttpMethod.post
    "/v1/policy/device-admin/policy-set/{policyId}/authorization/reset-hitcount"
    [("policyId", policy_id)] []
    "bpm_edb17577d9503ba1155c2916dcf663_v3_0_0" headers query_parameters

/-- `DeviceAdministrationAuthorizationRules.reset_hit_counts_by_id`: alias. -/
def reset_hit_counts_by_id {W : Type} (env : Env W)
    (sessionHeaders : Headers) (policy_id : String)
    (headers : Option Headers) (query_parameters : Params) : Outcome W :=
  reset_hit_counts_device_admin_policy_by_id_authorization_rules env
    sessionHeaders policy_id headers query_parameters

/-- `DeviceAdministrationAuthorizationRules.get_device_admin_policy_by_id_authorization_rule_by_id`. -/
def get_device_admin_policy_by_id_authorization_rule_by_id {W : Type}
    (env : Env W) (sessionHeaders : Headers) (policy_id rule_id : String)
    (headers : Option Headers) (query_parameters : Params) : Outcome W :=
  runNoBodyMethod env sessionHeaders HttpMethod.get
    "/v1/policy/device-admin/policy-set/{policyId}/authorization/{ruleId}"
    [("policyId", policy_id), ("ruleId", rule_id)] []
    "bpm_f1d11ab85a0a5597b9513d92a894ef1b_v3_0_0" headers query_parameters

/-- `DeviceAdministrationAuthorizationRules.get_by_id`: alias. -/
def get_by_id {W : Type} (env : Env W) (sessionHeaders : Headers)
    (policy_id rule_id : String) (headers : Option Headers)
    (query_parameters : Params) : Outcome W :=
  get_device_admin_policy_by_id_authorization_rule_by_id env sessionHeaders
    policy_id rule_id headers query_parameters

/-- `DeviceAdministrationAuthorizationRules.update_device_admin_policy_by_id_authorization_rule_by_id`:
PUT with a flat (no root key) JSON body. -/
def update_device_admin_policy_by_id_authorization_rule_by_id {W : Type}
    (env : Env W) (sessionHeaders : Headers) (policy_id rule_id : String)
    (commands link profile rule : JValue) (headers : Option Headers)
    (payload : Option PayloadArg) (active_validation : Bool)
    (query_parameters : Params) : Outcome W :=
  runBodyMethod env sessionHeaders HttpMethod.put
    "/v1/policy/device-admin/policy-set/{policyId}/authorization/{ruleId}"
    [("policyId", policy_id), ("ruleId", rule_id)] [] none
    (authorizationRuleBody commands link profile rule)
    "jsd_b60ed1eed75d7d9091344f4e38e2f1_v3_0_0"
    "bpm_b60ed1eed75d7d9091344f4e38e2f1_v3_0_0"
    headers payload active_validation query_parameters

/-- `DeviceAdministrationAuthorizationRules.update_by_id`: alias. -/
def update_by_id {W : Type} (env : Env W) (sessionHeaders : Headers)
    (policy_id rule_id : String) (commands link profile rule : JValue)
    (headers : Option Headers) (payload : Option PayloadArg)
    (active_validation : Bool) (query_parameters : Params) : Outcome W :=
  update_device_admin_policy_by_id_authorization_rule_by_id env
    sessionHeaders policy_id rule_id commands link profile rule headers
    payload active_validation query_parameters

/-- `DeviceAdministrationAuthorizationRules.delete_device_admin_policy_by_id_authorization_rule_by_id`. -/
def delete_device_admin_policy_by_id_authorization_rule_by_id {W : Type}
    (env : Env W) (sessionHeaders : Headers) (policy_id rule_id : String)
    (headers : Option Headers) (query_parameters : Params) : Outcome W :=
  runNoBodyMethod env sessionHeaders HttpMethod.delete
    "/v1/policy/device-admin/policy-set/{policyId}/authorization/{ruleId}"
    [("policyId", policy_id), ("ruleId", rule_id)] []
    "bpm_e7979abd11155f12b1336bbf02a99687_v3_0_0" headers query_parameters

/-- `DeviceAdministrationAuthorizationRules.delete_by_id`: alias. -/
def delete_by_id {W : Type} (env : Env W) (sessionHeaders : Headers)
    (policy_id rule_id : String) (headers : Option Headers)
    (query_parameters : Params) : Outcome W :=
  delete_device_admin_policy_by_id_authorization_rule_by_id env
    sessionHeaders policy_id rule_id headers query_parameters

end DeviceAdministrationAuthorizationRules

/-- Walk an access path (such as `["SearchResult", "nextPage", "href"]`)
through a JSON value, as the pagination helper does on a list response. -/
def jsonGetPath : JValue → List String → Option JValue
  | v, [] => some v
  | JValue.obj fields, k :: rest =>
      match dictGet fields k with
      | some v => jsonGetPath v rest
      | none => none
  | _, _ :: _ => none

/-- The next-link field of a page, when present: the string at the access
path in the page's response body. -/
def nextLink (page : JValue) (access_next_list : List String) :
    Option String :=
  match jsonGetPath page access_next_list with
  | some (JValue.str href) => some href
  | _ => none

/-- Modelled from the spec: the shared pagination helper `get_next_page`
(in `ciscoisesdk/pagination.py`, not under `src/`), the "generic generator
that follows a `nextPage.href`-style link field in list responses until
exhausted, yielding one page at a time".  `call none` is the underlying
list method applied to the caller's original parameters; `call (some href)`
is the same method applied to the parameters carried by the followed link.
`fuel` bounds the number of pages so the model is total; the generator
itself stops as soon as the link field is absent. -/
def get_next_page (call : Option String → JValue)
    (access_next_list : List String) : Nat → Option String → List JValue
  | 0, _ => []
  | Nat.succ fuel, href =>
      let page := call href
      page ::
        (match nextLink page access_next_list with
         | some nextHref =>
             get_next_page call access_next_list fuel (some nextHref)
         | none => [])

namespace ActiveDirectory

/-- `ActiveDirectory.get_active_directory_generator`: yields from
`get_next_page` applied to `self.get_active_directory` with
`access_next_list=["SearchResult", "nextPage", "href"]`.  `call` stands for
that bound method together with the parameter handling done inside the
helper. -/
def get_active_directory_generator (call : Option String → JValue)
    (fuel : Nat) : List JValue :=
  get_next_page call ["SearchResult", "nextPage", "href"] fuel none

/-- `ActiveDirectory.get_all_generator`: alias; the source repeats the same
`get_next_page` invocation as `get_active_directory_generator`. -/
def get_all_generator (call : Option String → JValue) (fuel : Nat) :
    List JValue :=
  get_next_page call ["SearchResult", "nextPage", "href"] fuel none

end ActiveDirectory

namespace ByodPortal

/-- `ByodPortal.get_byod_portal_generator`: yields from `get_next_page`
applied to `self.get_byod_portal` with
`access_next_list=["SearchResult", "nextPage", "href"]`. -/
def get_byod_portal_generator (call : Option String → JValue)
    (fuel : Nat) : List JValue :=
  get_next_page call ["SearchResult", "nextPage", "href"] fuel none

/-- `ByodPortal.get_all_generator`: alias; the source repeats the same
`get_next_page` invocation as `get_byod_portal_generator`. -/
def get_all_generator (call : Option String → JValue) (fuel : Nat) :
    List JValue :=
  get_next_page call ["SearchResult", "nextPage", "href"] fuel none

end ByodPortal

/-- The JSON-Schema (draft-04) fragment the two validator schemas use:
objects with per-property schemas and required keys, arrays with an item
schema, and strings with optional length bounds and enum. -/
inductive JSchema where
  | objectOf (props : List (String × JSchema)) (required : List String)
  | arrayOf (item : JSchema)
  | stringTy (minLen maxLen : Option Nat) (enumVals : Option (List String))

/-- Every required key occurs among the instance's fields. -/
def requiredPresent (fields : Params) (req : List String) : Bool :=
  req.all (fun k => fields.any (fun kv => kv.1 = k))

mutual

/-- Draft-04 conformance for the schema fragment: a `type: object` schema
rejects non-objects, requires the `required` keys, and checks each present
field that has a declared property schema (undeclared fields are allowed);
a `type: array` schema rejects non-arrays and checks every element; a
`type: string` schema rejects non-strings and checks length bounds and
enum membership. -/
def conforms : JValue → JSchema → Bool
  | JValue.obj fields, JSchema.objectOf props req =>
      requiredPresent fields req && conformsFields fields props
  | _, JSchema.objectOf _ _ => false
  | JValue.arr xs, JSchema.arrayOf item => conformsList xs item
  | _, JSchema.arrayOf _ => false
  | JValue.str s, JSchema.stringTy mn mx en =>
      (match mn with
       | none => true
       | some n => decide (n ≤ s.length)) &&
      (match mx with
       | none => true
       | some n => decide (s.length ≤ n)) &&
      (match en with
       | none => true
       | some l => l.contains s)
  | _, JSchema.stringTy _ _ _ => false

/-- Every element of the list conforms to the item schema. -/
def conformsList : List JValue → JSchema → Bool
  | [], _ => true
  | x :: xs, s => conforms x s && conformsList xs s

/-- Every field with a declared property schema conforms to it. -/
def conformsFields : List (String × JValue) → List (String × JSchema) →
    Bool
  | [], _ => true
  | (k, v) :: rest, props =>
      (match dictGet props k with
       | some s => conforms v s
       | none => true) && conformsFields rest props

end

/-- The `getNodes` request schema compiled in
`src/tests/models/validators/v3_1_0/jsd_fa838e78175e51b4bcfb0821c19b81b7.py`,
transliterated from the schema literal. -/
def schemaFa838E78175E51B4Bcfb0821C19B81B7 : JSchema :=
  JSchema.objectOf
    [("response",
      JSchema.arrayOf
        (JSchema.objectOf
          [("hostname", JSchema.stringTy (some 1) (some 64) none),
           ("nodeStatus",
            JSchema.stringTy none none
              (some ["Connected", "Disconnected", "InProgress"])),
           ("personaType",
            JSchema.arrayOf
              (JSchema.stringTy none none
                (some ["Administration", "PolicyService", "Monitoring",
                       "pxGrid"]))),
           ("roles",
            JSchema.arrayOf
              (JSchema.stringTy none none
                (some ["PrimaryPAN", "SecondaryPAN",
                       "PrimaryMonitoringNode",
                       "SecondaryMonitoringNode"]))),
           ("services",
            JSchema.arrayOf
              (JSchema.stringTy none none
                (some ["Session", "Profiling", "All"])))]
          []))]
    []

/-- The `getDeviceAdminNetworkConditionById` request schema compiled in
`src/tests/models/validators/v3_0_0/jsd_e9cc593c395c48b31b30149467c846.py`,
transliterated from the schema literal. -/
def schemaE9Cc593C395C48B31B30149467C846 : JSchema :=
  JSchema.objectOf
    [("response",
      JSchema.objectOf
        [("conditionType",
          JSchema.stringTy none none
            (some ["EndstationCondition", "DeviceCondition",
                   "DevicePortCondition"])),
         ("conditions",
          JSchema.arrayOf
            (JSchema.objectOf
              [("cliDnisList",
                JSchema.arrayOf (JSchema.stringTy none none none)),
               ("deviceGroupList",
                JSchema.arrayOf (JSchema.stringTy none none none)),
               ("deviceList",
                JSchema.arrayOf (JSchema.stringTy none none none)),
               ("ipAddrList",
                JSchema.arrayOf (JSchema.stringTy none none none)),
               ("macAddrList",
                JSchema.arrayOf (JSchema.stringTy none none none))]
              [])),
         ("description", JSchema.stringTy none none none),
         ("id", JSchema.stringTy none none none),
         ("link",
          JSchema.objectOf
            [("href", JSchema.stringTy none none none),
             ("rel",
              JSchema.stringTy none none
                (some ["next", "previous", "self", "status"])),
             ("type", JSchema.stringTy none none none)]
            ["href"]),
         ("name", JSchema.stringTy none none none)]
        ["conditionType", "name"]),
     ("version", JSchema.stringTy none none none)]
    ["response", "version"]

/-- Modelled from dependency behaviour: the callable produced by
`fastjsonschema.compile(schema)` raises a `JsonSchemaException` exactly
when the instance does not conform to the schema, and returns normally
otherwise. -/
def fastjsonschemaCompiled (schema : JSchema) (request : JValue) :
    Except String Unit :=
  if conforms request schema then Except.ok ()
  else Except.error "data must conform to the schema"

/-- `JSONSchemaValidatorFa838E78175E51B4Bcfb0821C19B81B7.validate`: run the
compiled validator on the request; on a `JsonSchemaException` raise
`MalformedRequest` (modelled as `Except.error` with the formatted
message), otherwise return normally. -/
def JSONSchemaValidatorFa838E78175E51B4Bcfb0821C19B81B7.validate
    (request : JValue) : Except String Unit :=
  match fastjsonschemaCompiled schemaFa838E78175E51B4Bcfb0821C19B81B7
      request with
  | Except.ok () => Except.ok ()
  | Except.error e => Except.error ("request is invalid. Reason: " ++ e)

/-- `JSONSchemaValidatorE9Cc593C395C48B31B30149467C846.validate`: run the
compiled validator on the request; on a `JsonSchemaException` raise
`MalformedRequest` (modelled as `Except.error` with the formatted
message), otherwise return normally. -/
def JSONSchemaValidatorE9Cc593C395C48B31B30149467C846.validate
    (request : JValue) : Except String Unit :=
  match fastjsonschemaCompiled schemaE9Cc593C395C48B31B30149467C846
      request with
  | Except.ok () => Except.ok ()
  | Except.error e => Except.error ("request is invalid. Reason: " ++ e)

/-- Entries surviving `dict_from_items_with_values` are never `None`. -/
theorem mem_dict_from_items_with_values {d : Params} {kv : String × JValue}
    (h : kv ∈ dict_from_items_with_values d) : kv.2.isNull = false := by
  unfold dict_from_items_with_values at h
  have h2 := (List.mem_filter.mp h).2
  simpa using h2

/-- First-match lookup distributes over append. -/
theorem dictGet_append {α : Type} (a b : List (String × α)) (k : String) :
    dictGet (a ++ b) k =
      match dictGet a k with
      | some v => some v
      | none => dictGet b k := by
  induction a with
  | nil => simp [dictGet]
  | cons kv rest ih =>
      by_cases h : kv.1 = k
      · simp [dictGet, h]
      · simp [dictGet, h, ih]

/-- Looking up the freshly inserted key finds the inserted value. -/
theorem dictGet_dictInsert_self {α : Type} (d : List (String × α))
    (k : String) (v : α) : dictGet (dictInsert d k v) k = some v := by
  induction d with
  | nil => simp [dictInsert, dictGet]
  | cons kv rest ih =>
      by_cases h : kv.1 = k
      · simp [dictInsert, dictGet, h]
      · simp [dictInsert, dictGet, h, ih]

/-- Inserting a different key does not change a lookup. -/
theorem dictGet_dictInsert_ne {α : Type} (d : List (String × α))
    {k' k : String} (v : α) (h : k' ≠ k) :
    dictGet (dictInsert d k' v) k = dictGet d k := by
  induction d with
  | nil => simp [dictInsert, dictGet, h]
  | cons kv rest ih =>
      by_cases hk : kv.1 = k'
      · simp [dictInsert, dictGet, hk, h]
      · by_cases hk2 : kv.1 = k
        · have hne : ¬k = k' := fun hh => h hh.symm
          simp [dictInsert, dictGet, hk, hk2, hne]
        · simp [dictInsert, dictGet, hk, hk2, ih]

/-- A lookup fails exactly when no entry carries the key. -/
theorem dictGet_eq_none_iff {α : Type} (d : List (String × α))
    (k : String) : dictGet d k = none ↔ ∀ kv ∈ d, kv.1 ≠ k := by
  induction d with
  | nil => simp [dictGet]
  | cons kv rest ih =>
      by_cases h : kv.1 = k
      · simp [dictGet, h]
      · simp [dictGet, h, ih]

/-- Updating with entries that avoid a key does not change its lookup. -/
theorem dictGet_dictUpdate_not_mem {α : Type} {e : List (String × α)}
    (d : List (String × α)) {k : String} (h : ∀ kv ∈ e, kv.1 ≠ k) :
    dictGet (dictUpdate d e) k = dictGet d k := by
  induction e generalizing d with
  | nil => simp [dictUpdate]
  | cons kv rest ih =>
      have h1 : kv.1 ≠ k := h kv (by simp)
      have hrest : ∀ kv' ∈ rest, kv'.1 ≠ k := fun kv' hm => h kv' (by simp [hm])
      have step : dictUpdate d (kv :: rest) =
          dictUpdate (dictInsert d kv.1 kv.2) rest := rfl
      rw [step, ih (dictInsert d kv.1 kv.2) hrest,
        dictGet_dictInsert_ne d kv.2 h1]

/-- After `d.update(e)`, each key of `e` looks up to the value of its last
occurrence in `e` (the first occurrence in `e.reverse`). -/
theorem dictGet_dictUpdate_mem {α : Type} {e : List (String × α)}
    (d : List (String × α)) {k : String} {v : α}
    (h : dictGet e.reverse k = some v) :
    dictGet (dictUpdate d e) k = some v := by
  induction e generalizing d with
  | nil => simp [dictGet] at h
  | cons kv rest ih =>
      rw [List.reverse_cons, dictGet_append] at h
      have step : dictUpdate d (kv :: rest) =
          dictUpdate (dictInsert d kv.1 kv.2) rest := rfl
      cases he : dictGet rest.reverse k with
      | some v' =>
          rw [he] at h
          cases h
          rw [step]
          exact ih (dictInsert d kv.1 kv.2) he
      | none =>
          rw [he] at h
          have hall : ∀ kv' ∈ rest, kv'.1 ≠ k := by
            have := (dictGet_eq_none_iff rest.reverse k).mp he
            intro kv' hm
            exact this kv' (List.mem_reverse.mpr hm)
          rw [step, dictGet_dictUpdate_not_mem (dictInsert d kv.1 kv.2) hall]
          by_cases hk : kv.1 = k
          · simp [dictGet, hk] at h
            subst hk
            rw [h]
            exact dictGet_dictInsert_self d kv.1 v
          · simp [dictGet, hk] at h

/-- Whatever branch a body-sending method takes, the session headers after
the call are the ones produced by the header-merging prologue. -/
theorem runBodyMethod_sessionHeaders {W : Type} (env : Env W)
    (st : Headers) (m : HttpMethod) (u : String)
    (pp : List (String × String)) (seed : Params) (rk : Option String)
    (nb : Params) (vid fid : String) (headers : Option Headers)
    (payload : Option PayloadArg) (av : Bool) (qp : Params) :
    (runBodyMethod env st m u pp seed rk nb vid fid headers payload av
      qp).sessionHeaders = (mergeHeadersStep st headers).2.1 := by
  unfold runBodyMethod
  dsimp only
  repeat' (first | rfl | split)

/-- A body-sending method either raises without touching the session, or
issues exactly one request carrying the XML payload or the assembled and
validated JSON body, and returns the factory applied to its response. -/
theorem runBodyMethod_cases {W : Type} (env : Env W) (st : Headers)
    (m : HttpMethod) (u : String) (pp : List (String × String))
    (seed : Params) (rk : Option String) (nb : Params) (vid fid : String)
    (headers : Option Headers) (payload : Option PayloadArg) (av : Bool)
    (qp : Params) :
    (∃ e,
      (runBodyMethod env st m u pp seed rk nb vid fid headers payload av
        qp).result = Except.error e ∧
      (runBodyMethod env st m u pp seed rk nb vid fid headers payload av
        qp).requests = []) ∨
    (∃ req,
      (runBodyMethod env st m u pp seed rk nb vid fid headers payload av
        qp).requests = [req] ∧
      (runBodyMethod env st m u pp seed rk nb vid fid headers payload av
        qp).result =
        Except.ok (env.object_factory fid (env.respond req)) ∧
      req.method = m ∧
      req.url = apply_path_params u pp ∧
      req.params = dict_from_items_with_values (dictUpdate seed qp) ∧
      req.headers =
        (if (mergeHeadersStep st headers).2.2 then
          some (mergeHeadersStep st headers).1
        else none) ∧
      ((xmlMode st headers = true ∧ req.body = some (Body.data payload)) ∨
       (xmlMode st headers = false ∧
        ∃ bd, assembleJsonBody rk nb payload = Except.ok bd ∧
          req.body = some (Body.json bd) ∧
          (av = true →
            env.request_validator vid (JValue.obj bd) = Except.ok ())))) := by
  unfold runBodyMethod
  dsimp only
  split
  · exact Or.inl ⟨_, rfl, rfl⟩
  next h1 =>
    split
    next hx =>
      exact Or.inr ⟨_, rfl, rfl, rfl, rfl, rfl, rfl, Or.inl ⟨hx, rfl⟩⟩
    next hx =>
      split
      next e heq => exact Or.inl ⟨_, rfl, rfl⟩
      next bd heq =>
        split
        next msg hval => exact Or.inl ⟨_, rfl, rfl⟩
        next hval =>
          refine Or.inr ⟨_, rfl, rfl, rfl, rfl, rfl, rfl,
            Or.inr ⟨by simpa using hx, bd, heq, rfl, ?_⟩⟩
          intro hav
          rw [hav] at hval
          simpa using hval

/-- A successfully assembled JSON body never holds a `None` at one of its
top-level keys: the assembly ends in `dict_from_items_with_values`. -/
theorem assembleJsonBody_no_null {rk : Option String} {nb : Params}
    {payload : Option PayloadArg} {bd : Params}
    (h : assembleJsonBody rk nb payload = Except.ok bd) :
    ∀ kv ∈ bd, kv.2.isNull = false := by
  intro kv hm
  unfold assembleJsonBody at h
  rcases payload with _ | pa
  · cases h
    exact mem_dict_from_items_with_values hm
  · cases pa with
    | xml s =>
        dsimp only at h
        by_cases hs : s = ""
        · rw [if_pos hs] at h
          cases h
          exact mem_dict_from_items_with_values hm
        · rw [if_neg hs] at h
          cases h
    | dict d =>
        cases h
        exact mem_dict_from_items_with_values hm

/-- With both the session's headers and the custom headers non-empty, the
header-merging prologue updates the session's dict in place and keeps
using it. -/
theorem mergeHeadersStep_both_nonempty (st h : Headers) (hst : st ≠ [])
    (hh : h ≠ []) :
    mergeHeadersStep st (some h) =
      (dictUpdate st (dict_of_str h), dictUpdate st (dict_of_str h),
        true) := by
  simp [mergeHeadersStep, hh, hst]

/-- The first page yielded is the response to the caller's own request. -/
theorem get_next_page_first (call : Option String → JValue)
    (path : List String) (fuel : Nat) (start : Option String) :
    (get_next_page call path (fuel + 1) start)[0]? = some (call start) := by
  simp [get_next_page]

/-- Consecutive pages are linked: whenever page `i+1` exists, page `i`
carried a next link and page `i+1` is the response obtained by following
it. -/
theorem get_next_page_consec (call : Option String → JValue)
    (path : List String) :
    ∀ (fuel : Nat) (start : Option String) (i : Nat) (page next : JValue),
      (get_next_page call path fuel start)[i]? = some page →
      (get_next_page call path fuel start)[i + 1]? = some next →
      ∃ href, nextLink page path = some href ∧ next = call (some href) := by
  intro fuel
  induction fuel with
  | zero =>
      intro start i page next h1 _
      simp [get_next_page] at h1
  | succ f ih =>
      intro start i page next h1 h2
      simp only [get_next_page] at h1 h2
      cases i with
      | zero =>
          simp only [List.getElem?_cons_zero, Option.some.injEq] at h1
          subst h1
          cases hnl : nextLink (call start) path with
          | none =>
              rw [hnl] at h2
              simp at h2
          | some href =>
              rw [hnl] at h2
              simp only [List.getElem?_cons_succ] at h2
              cases f with
              | zero => simp [get_next_page] at h2
              | succ f2 =>
                  simp only [get_next_page, List.getElem?_cons_zero,
                    Option.some.injEq] at h2
                  exact ⟨href, rfl, h2.symm⟩
      | succ i2 =>
          cases hnl : nextLink (call start) path with
          | none =>
              rw [hnl] at h1
              simp at h1
          | some href =>
              rw [hnl] at h1 h2
              simp only [List.getElem?_cons_succ] at h1 h2
              exact ih (some href) i2 page next h1 h2

/-- The generator stops when the link field is absent: a yielded page with
no next link is the last one. -/
theorem get_next_page_stop (call : Option String → JValue)
    (path : List String) :
    ∀ (fuel : Nat) (start : Option String) (i : Nat) (page : JValue),
      (get_next_page call path fuel start)[i]? = some page →
      nextLink page path = none →
      (get_next_page call path fuel start)[i + 1]? = none := by
  intro fuel
  induction fuel with
  | zero =>
      intro start i page h1 _
      simp [get_next_page] at h1
  | succ f ih =>
      intro start i page h1 hnl
      simp only [get_next_page] at h1 ⊢
      cases i with
      | zero =>
          simp only [List.getElem?_cons_zero, Option.some.injEq] at h1
          subst h1
          rw [hnl]
          simp
      | succ i2 =>
          cases hcall : nextLink (call start) path with
          | none =>
              rw [hcall] at h1
              simp at h1
          | some href =>
              rw [hcall] at h1
              dsimp only at h1 ⊢
              simp only [List.getElem?_cons_succ] at h1 ⊢
              exact ih (some href) i2 page h1 hnl

/-- A concrete environment for evaluating the theorems at specific inputs:
the session answers every request with an empty JSON object, the factory
returns the raw response, and the validator dispatch returns the
`getDeviceAdminNetworkConditionById` validator for every id. -/
def testEnv : Env RestResponse :=
  { respond := fun _ => { body := JValue.obj [] }
    object_factory := fun _ r => r
    request_validator := fun _ body =>
      JSONSchemaValidatorE9Cc593C395C48B31B30149467C846.validate body }

/-- A list-response body advertising a next page at `page2url`. -/
def pagedBody : JValue :=
  JValue.obj
    [("SearchResult",
      JValue.obj
        [("resources", JValue.arr []),
         ("nextPage",
          JValue.obj [("href", JValue.str "page2url")])])]

/-- An environment whose every response advertises a next page. -/
def pagedEnv : Env RestResponse :=
  { respond := fun _ => { body := pagedBody }
    object_factory := fun _ r => r
    request_validator := fun _ _ => Except.ok () }

/-- A concrete page function: the original request returns a page with a
next link, the followed link returns a page without one. -/
def pagedCall : Option String → JValue :=
  fun href =>
    match href with
    | none => pagedBody
    | some _ =>
        JValue.obj
          [("SearchResult", JValue.obj [("resources", JValue.arr [])])]

/-- C1 counterexample.  `NetworkAccessConditions.get_all` is a "list"
method ("Returns all library conditions"), yet on a session whose response
advertises a next page it issues exactly one direct GET and never requests
`page2url`: its results are produced by a single direct HTTP call, not by
the next-link-following pagination helper, so the claim fails at this
input. -/
theorem claim_C1_counterexample :
    (NetworkAccessConditions.get_all pagedEnv [] none []).requests =
      [{ method := HttpMethod.get
         url := "/api/v1/policy/network-access/condition"
         params := []
         headers := none
         body := none }] ∧
    nextLink
      (pagedEnv.respond
        { method := HttpMethod.get
          url := "/api/v1/policy/network-access/condition"
          params := []
          headers := none
          body := none }).body
      ["SearchResult", "nextPage", "href"] = some "page2url" :=
  ⟨rfl, rfl⟩

/-- C1 (amended).  Pagination is implemented once, in the shared
`get_next_page` helper, and the `*_generator` list methods obtain their
results through it; the plain list methods (`get_all` and the long names
they alias) instead issue exactly one direct HTTP call through the session
and do not follow next links. -/
theorem claim_C1_amended :
    (∀ (W : Type) (env : Env W) (st : Headers) (headers : Option Headers)
        (qp : Params),
      (NetworkAccessConditions.get_all env st headers qp).requests.length =
        1) ∧
    (∀ (W : Type) (env : Env W) (st : Headers) (page size : JValue)
        (headers : Option Headers) (qp : Params),
      (ActiveDirectory.get_all env st page size headers
        qp).requests.length = 1) ∧
    (∀ (W : Type) (env : Env W) (st : Headers)
        (filter filter_type page size sortasc sortdsc : JValue)
        (headers : Option Headers) (qp : Params),
      (ByodPortal.get_all env st filter filter_type page size sortasc
        sortdsc headers qp).requests.length = 1) ∧
    (∀ (W : Type) (env : Env W) (st : Headers) (policy_id : String)
        (headers : Option Headers) (qp : Params),
      (DeviceAdministrationAuthorizationRules.get_all env st policy_id
        headers qp).requests.length = 1) ∧
    (∀ (call : Option String → JValue) (fuel : Nat),
      ByodPortal.get_byod_portal_generator call fuel =
        get_next_page call ["SearchResult", "nextPage", "href"] fuel
          none) ∧
    (∀ (call : Option String → JValue) (fuel : Nat),
      ActiveDirectory.get_active_directory_generator call fuel =
        get_next_page call ["SearchResult", "nextPage", "href"] fuel
          none) :=
  ⟨fun _ _ _ _ _ => rfl, fun _ _ _ _ _ _ _ => rfl,
   fun _ _ _ _ _ _ _ _ _ _ _ => rfl, fun _ _ _ _ _ _ => rfl,
   fun _ _ => rfl, fun _ _ => rfl⟩

/-- C2.  For a body-sending wrapper method invoked with
`active_validation=True` and a non-XML Content-Type (and a type-correct
payload), when the JSON-Schema validator rejects the assembled body the
method raises `MalformedRequest` and no HTTP request at all goes through
the session: the send is never reached. -/
theorem claim_C2_validation_before_send :
    ∀ (W : Type) (env : Env W) (st : Headers) (m : HttpMethod) (u : String)
      (pp : List (String × String)) (seed : Params) (rk : Option String)
      (nb : Params) (vid fid : String) (headers : Option Headers)
      (payload : Option PayloadArg) (qp : Params) (bd : Params)
      (msg : String),
      xmlMode st headers = false →
      payloadCheck true (xmlMode st headers) payload = true →
      assembleJsonBody rk nb payload = Except.ok bd →
      env.request_validator vid (JValue.obj bd) = Except.error msg →
      (runBodyMethod env st m u pp seed rk nb vid fid headers payload true
        qp).result = Except.error (PyErr.malformedRequest msg) ∧
      (runBodyMethod env st m u pp seed rk nb vid fid headers payload true
        qp).requests = [] := by
  intro W env st m u pp seed rk nb vid fid headers payload qp bd msg hx hpc
    hasm hval
  rw [hx] at hpc
  unfold runBodyMethod
  simp [hx, hpc, hasm, hval]

/-- C2 witness: a concrete `get_user_groups`-shaped invocation whose empty
body fails the schema check; `MalformedRequest` is raised and the request
log stays empty. -/
theorem claim_C2_witness :
    xmlMode [] none = false ∧
    payloadCheck true (xmlMode [] none) none = true ∧
    assembleJsonBody (some "OperationAdditionalData")
      [("additionalData", JValue.null)] none =
      Except.ok [("OperationAdditionalData", JValue.obj [])] ∧
    testEnv.request_validator "jsd_b839d4dee9b958e48ccef056603e253f_v3_1_0"
      (JValue.obj [("OperationAdditionalData", JValue.obj [])]) =
      Except.error
        "request is invalid. Reason: data must conform to the schema" ∧
    (runBodyMethod testEnv [] HttpMethod.put
      "/ers/config/activedirectory/{id}/getUserGroups" [("id", "i1")] []
      (some "OperationAdditionalData") [("additionalData", JValue.null)]
      "jsd_b839d4dee9b958e48ccef056603e253f_v3_1_0"
      "bpm_b839d4dee9b958e48ccef056603e253f_v3_1_0" none none true
      []).result =
      Except.error (PyErr.malformedRequest
        "request is invalid. Reason: data must conform to the schema") ∧
    (runBodyMethod testEnv [] HttpMethod.put
      "/ers/config/activedirectory/{id}/getUserGroups" [("id", "i1")] []
      (some "OperationAdditionalData") [("additionalData", JValue.null)]
      "jsd_b839d4dee9b958e48ccef056603e253f_v3_1_0"
      "bpm_b839d4dee9b958e48ccef056603e253f_v3_1_0" none none true
      []).requests = [] :=
  ⟨rfl, rfl, rfl, rfl,
   (claim_C2_validation_before_send RestResponse testEnv [] HttpMethod.put
     "/ers/config/activedirectory/{id}/getUserGroups" [("id", "i1")] []
     (some "OperationAdditionalData") [("additionalData", JValue.null)]
     "jsd_b839d4dee9b958e48ccef056603e253f_v3_1_0"
     "bpm_b839d4dee9b958e48ccef056603e253f_v3_1_0" none none []
     [("OperationAdditionalData", JValue.obj [])]
     "request is invalid. Reason: data must conform to the schema"
     rfl rfl rfl rfl).1,
   (claim_C2_validation_before_send RestResponse testEnv [] HttpMethod.put
     "/ers/config/activedirectory/{id}/getUserGroups" [("id", "i1")] []
     (some "OperationAdditionalData") [("additionalData", JValue.null)]
     "jsd_b839d4dee9b958e48ccef056603e253f_v3_1_0"
     "bpm_b839d4dee9b958e48ccef056603e253f_v3_1_0" none none []
     [("OperationAdditionalData", JValue.obj [])]
     "request is invalid. Reason: data must conform to the schema"
     rfl rfl rfl rfl).2⟩

/-- C3.  Each payload schema validator's `validate` returns normally
exactly when the body conforms to its compiled JSON Schema, and raises
`MalformedRequest` (the only failure it can produce) exactly when it does
not; the check is pure, so the body is left unchanged. -/
theorem claim_C3_validate_iff_conforms :
    ∀ request : JValue,
      (JSONSchemaValidatorFa838E78175E51B4Bcfb0821C19B81B7.validate
          request).isOk =
        conforms request schemaFa838E78175E51B4Bcfb0821C19B81B7 ∧
      (JSONSchemaValidatorE9Cc593C395C48B31B30149467C846.validate
          request).isOk =
        conforms request schemaE9Cc593C395C48B31B30149467C846 := by
  intro request
  constructor
  · unfold JSONSchemaValidatorFa838E78175E51B4Bcfb0821C19B81B7.validate
      fastjsonschemaCompiled
    cases hc : conforms request schemaFa838E78175E51B4Bcfb0821C19B81B7 <;>
      simp [hc, Except.isOk, Except.toBool]
  · unfold JSONSchemaValidatorE9Cc593C395C48B31B30149467C846.validate
      fastjsonschemaCompiled
    cases hc : conforms request schemaE9Cc593C395C48B31B30149467C846 <;>
      simp [hc, Except.isOk, Except.toBool]

/-- The body the claim prescribes for the C4 counterexample input: the
named body arguments of `load_groups_from_domain` with `None` entries
dropped, wrapped under the resource's root key (the payload argument being
an XML string, it contributes no dict entries). -/
def claimedBodyAtC4Input : Params :=
  [("ERSActiveDirectory",
    JValue.obj [("id", JValue.str "i1"), ("name", JValue.str "N")])]

/-- C4 counterexample.  In XML mode (`Content-Type: application/xml`) the
body sent by `load_groups_from_domain` is the raw `payload` string,
unrelated to the named body arguments: with `name="N"` the request body is
`<a/>`, which is not the prescribed wrapped assembly and does not even
contain `N`.  The claim, which asserts the assembly for every payload
mode, fails at this input. -/
theorem claim_C4_counterexample :
    (ActiveDirectory.load_groups_from_domain testEnv [] "i1" JValue.null
      JValue.null JValue.null JValue.null JValue.null JValue.null
      JValue.null (JValue.str "N")
      (some [("Content-Type", "application/xml")])
      (some (PayloadArg.xml "<a/>")) true []).requests.map
        (fun r => r.body) =
      [some (Body.data (some (PayloadArg.xml "<a/>")))] ∧
    some (Body.data (some (PayloadArg.xml "<a/>"))) ≠
      some (Body.json claimedBodyAtC4Input) ∧
    strContains "<a/>" "N" = false :=
  ⟨rfl, fun h => Body.noConfusion (Option.some.inj h), rfl⟩

/-- C4 (amended).  For every body-sending wrapper method that returns
normally: in JSON mode the body sent is assembled from the named body
arguments (wrapped under the resource's root key where the endpoint
defines one, with entries of the explicit payload dict merged in and
`None` entries dropped); in XML mode the `payload` argument itself is sent
as the body, unchanged. -/
theorem claim_C4_amended :
    ∀ (W : Type) (env : Env W) (st : Headers) (m : HttpMethod) (u : String)
      (pp : List (String × String)) (seed : Params) (rk : Option String)
      (nb : Params) (vid fid : String) (headers : Option Headers)
      (payload : Option PayloadArg) (av : Bool) (qp : Params) (w : W),
      (runBodyMethod env st m u pp seed rk nb vid fid headers payload av
        qp).result = Except.ok w →
      (xmlMode st headers = true →
        (runBodyMethod env st m u pp seed rk nb vid fid headers payload av
          qp).requests.map (fun r => r.body) =
          [some (Body.data payload)]) ∧
      (xmlMode st headers = false →
        ∃ bd, assembleJsonBody rk nb payload = Except.ok bd ∧
          (runBodyMethod env st m u pp seed rk nb vid fid headers payload
            av qp).requests.map (fun r => r.body) =
            [some (Body.json bd)]) := by
  intro W env st m u pp seed rk nb vid fid headers payload av qp w h
  rcases runBodyMethod_cases env st m u pp seed rk nb vid fid headers
    payload av qp with ⟨e, he, _⟩ | ⟨req, hreq, _, _, _, _, _, hb⟩
  · rw [he] at h
    exact Except.noConfusion h
  · constructor
    · intro hx
      rcases hb with ⟨_, hbody⟩ | ⟨hx2, _⟩
      · simp [hreq, hbody]
      · rw [hx] at hx2
        exact Bool.noConfusion hx2
    · intro hx
      rcases hb with ⟨hx2, _⟩ | ⟨_, bd, hasm, hbody, _⟩
      · rw [hx] at hx2
        exact Bool.noConfusion hx2
      · exact ⟨bd, hasm, by simp [hreq, hbody]⟩

/-- The named body arguments of a concrete authorization-rule `create`
call: only `profile` is given. -/
def exFlatBody : Params :=
  [("commands", JValue.null), ("link", JValue.null),
   ("profile", JValue.str "P"), ("rule", JValue.null)]

/-- C4 witness: a concrete JSON-mode call sends exactly the assembled flat
body. -/
theorem claim_C4_witness :
    (runBodyMethod testEnv [] HttpMethod.post "/y" [] [] none exFlatBody
      "v" "f" none none false []).result =
      Except.ok { body := JValue.obj [] } ∧
    (xmlMode [] (none : Option Headers) = false →
      ∃ bd, assembleJsonBody none exFlatBody none = Except.ok bd ∧
        (runBodyMethod testEnv [] HttpMethod.post "/y" [] [] none
          exFlatBody "v" "f" none none false []).requests.map
            (fun r => r.body) = [some (Body.json bd)]) :=
  ⟨rfl,
   (claim_C4_amended RestResponse testEnv [] HttpMethod.post "/y" [] []
     none exFlatBody "v" "f" none none false [] { body := JValue.obj [] }
     rfl).2⟩

/-- C5.  A wrapper method that returns normally has issued exactly one
HTTP request through the shared session: always one for the body-less
template, and one for the body-sending template whenever it does not
raise; there is no retry and no additional request. -/
theorem claim_C5_single_request :
    (∀ (W : Type) (env : Env W) (st : Headers) (m : HttpMethod)
        (u : String) (pp : List (String × String)) (seed : Params)
        (fid : String) (headers : Option Headers) (qp : Params),
      (runNoBodyMethod env st m u pp seed fid headers
        qp).requests.length = 1) ∧
    (∀ (W : Type) (env : Env W) (st : Headers) (m : HttpMethod)
        (u : String) (pp : List (String × String)) (seed : Params)
        (rk : Option String) (nb : Params) (vid fid : String)
        (headers : Option Headers) (payload : Option PayloadArg)
        (av : Bool) (qp : Params) (w : W),
      (runBodyMethod env st m u pp seed rk nb vid fid headers payload av
        qp).result = Except.ok w →
      (runBodyMethod env st m u pp seed rk nb vid fid headers payload av
        qp).requests.length = 1) := by
  constructor
  · intro W env st m u pp seed fid headers qp
    rfl
  · intro W env st m u pp seed rk nb vid fid headers payload av qp w h
    rcases runBodyMethod_cases env st m u pp seed rk nb vid fid headers
      payload av qp with ⟨e, he, _⟩ | ⟨req, hreq, _⟩
    · rw [he] at h
      exact Except.noConfusion h
    · rw [hreq]
      rfl

/-- C5 witness: one concrete body-less call and one concrete normally
returning body-sending call, each issuing exactly one request. -/
theorem claim_C5_witness :
    (runNoBodyMethod testEnv [] HttpMethod.get "/x" [] [] "f" none
      []).requests.length = 1 ∧
    (runBodyMethod testEnv [] HttpMethod.post "/y" [] [] none exFlatBody
      "v" "f" none none false []).result =
      Except.ok { body := JValue.obj [] } ∧
    (runBodyMethod testEnv [] HttpMethod.post "/y" [] [] none exFlatBody
      "v" "f" none none false []).requests.length = 1 :=
  ⟨claim_C5_single_request.1 RestResponse testEnv [] HttpMethod.get "/x" []
    [] "f" none [], rfl,
   claim_C5_single_request.2 RestResponse testEnv [] HttpMethod.post "/y"
     [] [] none exFlatBody "v" "f" none none false []
     { body := JValue.obj [] } rfl⟩

/-- C6.  A list generator yields one page at a time: the first yielded
page is the response to the caller's own request, each later page is the
response obtained by following the previous page's
`SearchResult.nextPage.href` link, and a page with that link absent is the
last one yielded.  The Active Directory and BYOD portal generators run the
same shared helper. -/
theorem claim_C6_generator_follows_next_links :
    ∀ (call : Option String → JValue) (fuel : Nat),
      (ByodPortal.get_byod_portal_generator call (fuel + 1))[0]? =
        some (call none) ∧
      (∀ (i : Nat) (page next : JValue),
        (ByodPortal.get_byod_portal_generator call (fuel + 1))[i]? =
          some page →
        (ByodPortal.get_byod_portal_generator call (fuel + 1))[i + 1]? =
          some next →
        ∃ href,
          nextLink page ["SearchResult", "nextPage", "href"] = some href ∧
          next = call (some href)) ∧
      (∀ (i : Nat) (page : JValue),
        (ByodPortal.get_byod_portal_generator call (fuel + 1))[i]? =
          some page →
        nextLink page ["SearchResult", "nextPage", "href"] = none →
        (ByodPortal.get_byod_portal_generator call (fuel + 1))[i + 1]? =
          none) ∧
      ActiveDirectory.get_active_directory_generator call (fuel + 1) =
        ByodPortal.get_byod_portal_generator call (fuel + 1) := by
  intro call fuel
  refine ⟨get_next_page_first call _ fuel none, ?_, ?_, rfl⟩
  · intro i page next h1 h2
    exact get_next_page_consec call _ (fuel + 1) none i page next h1 h2
  · intro i page h1 h2
    exact get_next_page_stop call _ (fuel + 1) none i page h1 h2

/-- C6 witness: on a concrete page function the generator's first yielded
page is the response to the original request. -/
theorem claim_C6_witness :
    (ByodPortal.get_byod_portal_generator pagedCall 3)[0]? =
      some (pagedCall none) :=
  (claim_C6_generator_follows_next_links pagedCall 2).1

/-- C7.  Every wrapper method returns the injected object factory applied
to the raw session response of its single request, the response passed to
the factory unmodified: for the body-less template unconditionally, and
for the body-sending template whenever it returns normally. -/
theorem claim_C7_factory_applied :
    (∀ (W : Type) (env : Env W) (st : Headers) (m : HttpMethod)
        (u : String) (pp : List (String × String)) (seed : Params)
        (fid : String) (headers : Option Headers) (qp : Params),
      (runNoBodyMethod env st m u pp seed fid headers qp).requests.map
          (fun r => Except.ok (env.object_factory fid (env.respond r))) =
        [(runNoBodyMethod env st m u pp seed fid headers qp).result]) ∧
    (∀ (W : Type) (env : Env W) (st : Headers) (m : HttpMethod)
        (u : String) (pp : List (String × String)) (seed : Params)
        (rk : Option String) (nb : Params) (vid fid : String)
        (headers : Option Headers) (payload : Option PayloadArg)
        (av : Bool) (qp : Params) (w : W),
      (runBodyMethod env st m u pp seed rk nb vid fid headers payload av
        qp).result = Except.ok w →
      (runBodyMethod env st m u pp seed rk nb vid fid headers payload av
        qp).requests.map
          (fun r => env.object_factory fid (env.respond r)) = [w]) := by
  constructor
  · intro W env st m u pp seed fid headers qp
    rfl
  · intro W env st m u pp seed rk nb vid fid headers payload av qp w h
    rcases runBodyMethod_cases env st m u pp seed rk nb vid fid headers
      payload av qp with ⟨e, he, _⟩ | ⟨req, hreq, hres, _⟩
    · rw [he] at h
      exact Except.noConfusion h
    · rw [hres] at h
      simp only [Except.ok.injEq] at h
      simp [hreq, h]

/-- C7 witness: a concrete normally returning body-sending call whose
return value is the factory applied to the session's response. -/
theorem claim_C7_witness :
    (runBodyMethod testEnv [] HttpMethod.post "/y" [] [] none exFlatBody
      "v" "f" none none false []).result =
      Except.ok { body := JValue.obj [] } ∧
    (runBodyMethod testEnv [] HttpMethod.post "/y" [] [] none exFlatBody
      "v" "f" none none false []).requests.map
        (fun r => testEnv.object_factory "f" (testEnv.respond r)) =
      [{ body := JValue.obj [] }] :=
  ⟨rfl,
   claim_C7_factory_applied.2 RestResponse testEnv [] HttpMethod.post "/y"
     [] [] none exFlatBody "v" "f" none none false []
     { body := JValue.obj [] } rfl⟩

/-- C8.  When both the session's headers dict and the custom `headers`
argument are non-empty, a wrapper method merges the custom headers into
the session's own dict in place (an alias, since
`self._session.headers or {}` returns the session dict itself when it is
truthy): they are still there after the call, each custom key looking up
to its given value, and a subsequent call with no custom headers works on
that same mutated dict. -/
theorem claim_C8_headers_merged_into_session :
    ∀ (st h : Headers), st ≠ [] → h ≠ [] →
      (∀ (W : Type) (env : Env W) (m : HttpMethod) (u : String)
          (pp : List (String × String)) (seed : Params) (fid : String)
          (qp : Params),
        (runNoBodyMethod env st m u pp seed fid (some h)
          qp).sessionHeaders = dictUpdate st (dict_of_str h)) ∧
      (∀ (W : Type) (env : Env W) (m : HttpMethod) (u : String)
          (pp : List (String × String)) (seed : Params)
          (rk : Option String) (nb : Params) (vid fid : String)
          (payload : Option PayloadArg) (av : Bool) (qp : Params),
        (runBodyMethod env st m u pp seed rk nb vid fid (some h) payload
          av qp).sessionHeaders = dictUpdate st (dict_of_str h)) ∧
      (∀ (k v : String), dictGet h.reverse k = some v →
        dictGet (dictUpdate st (dict_of_str h)) k = some v) ∧
      mergeHeadersStep (dictUpdate st (dict_of_str h)) none =
        (dictUpdate st (dict_of_str h), dictUpdate st (dict_of_str h),
          false) := by
  intro st h hst hh
  have hm := mergeHeadersStep_both_nonempty st h hst hh
  refine ⟨?_, ?_, ?_, rfl⟩
  · intro W env m u pp seed fid qp
    show (mergeHeadersStep st (some h)).2.1 = _
    rw [hm]
  · intro W env m u pp seed rk nb vid fid payload av qp
    rw [runBodyMethod_sessionHeaders, hm]
  · intro k v hkv
    exact dictGet_dictUpdate_mem st hkv

/-- C8 witness: a concrete call on a session with a non-empty headers dict
and a non-empty custom headers argument leaves the merged dict in the
session. -/
theorem claim_C8_witness :
    ([("Authorization", "Basic x")] : Headers) ≠ [] ∧
    ([("Accept", "application/json")] : Headers) ≠ [] ∧
    (runNoBodyMethod testEnv [("Authorization", "Basic x")] HttpMethod.get
      "/x" [] [] "f" (some [("Accept", "application/json")])
      []).sessionHeaders =
      dictUpdate [("Authorization", "Basic x")]
        (dict_of_str [("Accept", "application/json")]) :=
  ⟨fun hcon => List.noConfusion hcon, fun hcon => List.noConfusion hcon,
   (claim_C8_headers_merged_into_session [("Authorization", "Basic x")]
     [("Accept", "application/json")] (fun hcon => List.noConfusion hcon)
     (fun hcon => List.noConfusion hcon)).1 RestResponse testEnv
     HttpMethod.get "/x" [] [] "f" []⟩

/-- C9.  Named arguments whose value is `None` are dropped before sending:
the query-parameter dict of every request issued through the session, and
the top-level entries of every JSON body sent, never hold a `None` value
(both pass through `dict_from_items_with_values` last). -/
theorem claim_C9_no_none_sent :
    (∀ (W : Type) (env : Env W) (st : Headers) (m : HttpMethod)
        (u : String) (pp : List (String × String)) (seed : Params)
        (fid : String) (headers : Option Headers) (qp : Params)
        (req : HttpRequest) (kv : String × JValue),
      req ∈ (runNoBodyMethod env st m u pp seed fid headers qp).requests →
      kv ∈ req.params → kv.2.isNull = false) ∧
    (∀ (W : Type) (env : Env W) (st : Headers) (m : HttpMethod)
        (u : String) (pp : List (String × String)) (seed : Params)
        (rk : Option String) (nb : Params) (vid fid : String)
        (headers : Option Headers) (payload : Option PayloadArg)
        (av : Bool) (qp : Params) (req : HttpRequest),
      req ∈ (runBodyMethod env st m u pp seed rk nb vid fid headers
        payload av qp).requests →
      (∀ kv ∈ req.params, kv.2.isNull = false) ∧
      (∀ bd : Params, req.body = some (Body.json bd) →
        ∀ kv ∈ bd, kv.2.isNull = false)) := by
  constructor
  · intro W env st m u pp seed fid headers qp req kv hreq hkv
    have heq := List.mem_singleton.mp hreq
    subst heq
    exact mem_dict_from_items_with_values hkv
  · intro W env st m u pp seed rk nb vid fid headers payload av qp req hreq
    rcases runBodyMethod_cases env st m u pp seed rk nb vid fid headers
      payload av qp with ⟨e, _, hempty⟩ | ⟨req0, hreq0, _, _, _, hparams,
        _, hb⟩
    · rw [hempty] at hreq
      exact absurd hreq (List.not_mem_nil req)
    · rw [hreq0] at hreq
      have heq := List.mem_singleton.mp hreq
      subst heq
      constructor
      · intro kv hkv
        rw [hparams] at hkv
        exact mem_dict_from_items_with_values hkv
      · intro bd hbd kv hkv
        rcases hb with ⟨_, hbody⟩ | ⟨_, bd0, hasm, hbody, _⟩
        · rw [hbody] at hbd
          exact Body.noConfusion (Option.some.inj hbd)
        · rw [hbody] at hbd
          injection hbd with hbd2
          injection hbd2 with hbd3
          subst hbd3
          exact assembleJsonBody_no_null hasm kv hkv

/-- The single request of the C9 witness call: the `size=None` seed entry
has been dropped. -/
def reqZ : HttpRequest :=
  { method := HttpMethod.get
    url := "/x"
    params := [("page", JValue.num 1)]
    headers := none
    body := none }

/-- C9 witness: a concrete call whose `page=1, size=None` parameter seed
is sent with the `None` entry dropped. -/
theorem claim_C9_witness :
    reqZ ∈ (runNoBodyMethod testEnv [] HttpMethod.get "/x" []
      [("page", JValue.num 1), ("size", JValue.null)] "f" none
      []).requests ∧
    (("page", JValue.num 1) : String × JValue) ∈ reqZ.params ∧
    (JValue.num 1).isNull = false :=
  ⟨List.mem_singleton.mpr rfl, List.mem_singleton.mpr rfl,
   claim_C9_no_none_sent.1 RestResponse testEnv [] HttpMethod.get "/x" []
     [("page", JValue.num 1), ("size", JValue.null)] "f" none [] reqZ
     ("page", JValue.num 1) (List.mem_singleton.mpr rfl)
     (List.mem_singleton.mpr rfl)⟩

/-- C10.  Each short-named alias method is extensionally equal to its
long-named counterpart: for all arguments it produces the same outcome
(the same requests, return value and session headers), across all four
embedded resource wrappers, including the generator aliases. -/
theorem claim_C10_aliases_extensionally_equal :
    (∀ (W : Type) (env : Env W) (st : Headers) (headers : Option Headers)
        (qp : Params),
      NetworkAccessConditions.get_all env st headers qp =
        NetworkAccessConditions.get_network_access_conditions env st
          headers qp) ∧
    (∀ (W : Type) (env : Env W) (st : Headers)
        (a1 a2 a3 a4 a5 a6 a7 a8 a9 a10 a11 a12 a13 a14 a15 a16 a17
          a18 : JValue)
        (headers : Option Headers) (payload : Option PayloadArg)
        (av : Bool) (qp : Params),
      NetworkAccessConditions.create env st a1 a2 a3 a4 a5 a6 a7 a8 a9 a10
          a11 a12 a13 a14 a15 a16 a17 a18 headers payload av qp =
        NetworkAccessConditions.create_network_access_condition env st a1
          a2 a3 a4 a5 a6 a7 a8 a9 a10 a11 a12 a13 a14 a15 a16 a17 a18
          headers payload av qp) ∧
    (∀ (W : Type) (env : Env W) (st : Headers) (name : String)
        (headers : Option Headers) (qp : Params),
      NetworkAccessConditions.get_by_name env st name headers qp =
        NetworkAccessConditions.get_network_access_condition_by_name env
          st name headers qp) ∧
    (∀ (W : Type) (env : Env W) (st : Headers) (name : String)
        (a1 a2 a3 a4 a5 a6 a7 a8 a9 a10 a11 a12 a13 a14 a15 a16
          a17 : JValue)
        (headers : Option Headers) (payload : Option PayloadArg)
        (av : Bool) (qp : Params),
      NetworkAccessConditions.update_by_name env st name a1 a2 a3 a4 a5 a6
          a7 a8 a9 a10 a11 a12 a13 a14 a15 a16 a17 headers payload av qp =
        NetworkAccessConditions.update_network_access_condition_by_name
          env st name a1 a2 a3 a4 a5 a6 a7 a8 a9 a10 a11 a12 a13 a14 a15
          a16 a17 headers payload av qp) ∧
    (∀ (W : Type) (env : Env W) (st : Headers) (name : String)
        (headers : Option Headers) (qp : Params),
      NetworkAccessConditions.delete_by_name env st name headers qp =
        NetworkAccessConditions.delete_network_access_condition_by_name
          env st name headers qp) ∧
    (∀ (W : Type) (env : Env W) (st : Headers) (id : String)
        (headers : Option Headers) (qp : Params),
      NetworkAccessConditions.get_by_id env st id headers qp =
        NetworkAccessConditions.get_network_access_condition_by_id env st
          id headers qp) ∧
    (∀ (W : Type) (env : Env W) (st : Headers) (id : String)
        (a1 a2 a3 a4 a5 a6 a7 a8 a9 a10 a11 a12 a13 a14 a15 a16
          a17 : JValue)
        (headers : Option Headers) (payload : Option PayloadArg)
        (av : Bool) (qp : Params),
      NetworkAccessConditions.update_by_id env st id a1 a2 a3 a4 a5 a6 a7
          a8 a9 a10 a11 a12 a13 a14 a15 a16 a17 headers payload av qp =
        NetworkAccessConditions.update_network_access_condition_by_id env
          st id a1 a2 a3 a4 a5 a6 a7 a8 a9 a10 a11 a12 a13 a14 a15 a16
          a17 headers payload av qp) ∧
    (∀ (W : Type) (env : Env W) (st : Headers) (id : String)
        (headers : Option Headers) (qp : Params),
      NetworkAccessConditions.delete_by_id env st id headers qp =
        NetworkAccessConditions.delete_network_access_condition_by_id env
          st id headers qp) ∧
    (∀ (W : Type) (env : Env W) (st : Headers) (name : String)
        (headers : Option Headers) (qp : Params),
      ActiveDirectory.get_by_name env st name headers qp =
        ActiveDirectory.get_active_directory_by_name env st name headers
          qp) ∧
    (∀ (W : Type) (env : Env W) (st : Headers) (page size : JValue)
        (headers : Option Headers) (qp : Params),
      ActiveDirectory.get_all env st page size headers qp =
        ActiveDirectory.get_active_directory env st page size headers
          qp) ∧
    (∀ (W : Type) (env : Env W) (st : Headers)
        (a1 a2 a3 a4 a5 a6 a7 a8 a9 : JValue) (headers : Option Headers)
        (payload : Option PayloadArg) (av : Bool) (qp : Params),
      ActiveDirectory.create env st a1 a2 a3 a4 a5 a6 a7 a8 a9 headers
          payload av qp =
        ActiveDirectory.create_active_directory env st a1 a2 a3 a4 a5 a6
          a7 a8 a9 headers payload av qp) ∧
    (∀ (W : Type) (env : Env W) (st : Headers) (id : String)
        (headers : Option Headers) (qp : Params),
      ActiveDirectory.get_by_id env st id headers qp =
        ActiveDirectory.get_active_directory_by_id env st id headers qp) ∧
    (∀ (W : Type) (env : Env W) (st : Headers) (id : String)
        (headers : Option Headers) (qp : Params),
      ActiveDirectory.delete_by_id env st id headers qp =
        ActiveDirectory.delete_active_directory_by_id env st id headers
          qp) ∧
    (∀ (call : Option String → JValue) (fuel : Nat),
      ActiveDirectory.get_all_generator call fuel =
        ActiveDirectory.get_active_directory_generator call fuel) ∧
    (∀ (W : Type) (env : Env W) (st : Headers) (id : String)
        (headers : Option Headers) (qp : Params),
      ByodPortal.get_by_id env st id headers qp =
        ByodPortal.get_byod_portal_by_id env st id headers qp) ∧
    (∀ (W : Type) (env : Env W) (st : Headers) (id : String)
        (a1 a2 a3 a4 a5 a6 : JValue) (headers : Option Headers)
        (payload : Option PayloadArg) (av : Bool) (qp : Params),
      ByodPortal.update_by_id env st id a1 a2 a3 a4 a5 a6 headers payload
          av qp =
        ByodPortal.update_byod_portal_by_id env st id a1 a2 a3 a4 a5 a6
          headers payload av qp) ∧
    (∀ (W : Type) (env : Env W) (st : Headers) (id : String)
        (headers : Option Headers) (qp : Params),
      ByodPortal.delete_by_id env st id headers qp =
        ByodPortal.delete_byod_portal_by_id env st id headers qp) ∧
    (∀ (W : Type) (env : Env W) (st : Headers)
        (filter filter_type page size sortasc sortdsc : JValue)
        (headers : Option Headers) (qp : Params),
      ByodPortal.get_all env st filter filter_type page size sortasc
          sortdsc headers qp =
        ByodPortal.get_byod_portal env st filter filter_type page size
          sortasc sortdsc headers qp) ∧
    (∀ (W : Type) (env : Env W) (st : Headers)
        (a1 a2 a3 a4 a5 a6 a7 : JValue) (headers : Option Headers)
        (payload : Option PayloadArg) (av : Bool) (qp : Params),
      ByodPortal.create env st a1 a2 a3 a4 a5 a6 a7 headers payload av
          qp =
        ByodPortal.create_byod_portal env st a1 a2 a3 a4 a5 a6 a7 headers
          payload av qp) ∧
    (∀ (call : Option String → JValue) (fuel : Nat),
      ByodPortal.get_all_generator call fuel =
        ByodPortal.get_byod_portal_generator call fuel) ∧
    (∀ (W : Type) (env : Env W) (st : Headers) (policy_id : String)
        (headers : Option Headers) (qp : Params),
      DeviceAdministrationAuthorizationRules.get_all env st policy_id
          headers qp =
        DeviceAdministrationAuthorizationRules.get_device_admin_policy_by_id_authorization_rule_list
          env st policy_id headers qp) ∧
    (∀ (W : Type) (env : Env W) (st : Headers) (policy_id : String)
        (a1 a2 a3 a4 : JValue) (headers : Option Headers)
        (payload : Option PayloadArg) (av : Bool) (qp : Params),
      DeviceAdministrationAuthorizationRules.create env st policy_id a1 a2
          a3 a4 headers payload av qp =
        DeviceAdministrationAuthorizationRules.create_device_admin_policy_by_id_authorization_rule
          env st policy_id a1 a2 a3 a4 headers payload av qp) ∧
    (∀ (W : Type) (env : Env W) (st : Headers) (policy_id : String)
        (headers : Option Headers) (qp : Params),
      DeviceAdministrationAuthorizationRules.reset_hit_counts_by_id env st
          policy_id headers qp =
        DeviceAdministrationAuthorizationRules.reset_hit_counts_device_admin_policy_by_id_authorization_rules
          env st policy_id headers qp) ∧
    (∀ (W : Type) (env : Env W) (st : Headers)
        (policy_id rule_id : String) (headers : Option Headers)
        (qp : Params),
      DeviceAdministrationAuthorizationRules.get_by_id env st policy_id
          rule_id headers qp =
        DeviceAdministrationAuthorizationRules.get_device_admin_policy_by_id_authorization_rule_by_id
          env st policy_id rule_id headers qp) ∧
    (∀ (W : Type) (env : Env W) (st : Headers)
        (policy_id rule_id : String) (a1 a2 a3 a4 : JValue)
        (headers : Option Headers) (payload : Option PayloadArg)
        (av : Bool) (qp : Params),
      DeviceAdministrationAuthorizationRules.update_by_id env st policy_id
          rule_id a1 a2 a3 a4 headers payload av qp =
        DeviceAdministrationAuthorizationRules.update_device_admin_policy_by_id_authorization_rule_by_id
          env st policy_id rule_id a1 a2 a3 a4 headers payload av qp) ∧
    (∀ (W : Type) (env : Env W) (st : Headers)
        (policy_id rule_id : String) (headers : Option Headers)
        (qp : Params),
      DeviceAdministrationAuthorizationRules.delete_by_id env st policy_id
          rule_id headers qp =
        DeviceAdministrationAuthorizationRules.delete_device_admin_policy_by_id_authorization_rule_by_id
          env st policy_id rule_id headers qp) := by
  refine ⟨?_, ?_, ?_, ?_, ?_, ?_, ?_, ?_, ?_, ?_, ?_, ?_, ?_, ?_, ?_, ?_,
    ?_, ?_, ?_, ?_, ?_, ?_, ?_, ?_, ?_, ?_⟩ <;> (intros; rfl)
